import Mathlib

/-!
# cluster-samples-operator: the reconciliation handler (`pkg/stub/handler.go`)

A shallow embedding of the handler and theorems about it.

Conventions of the embedding

* Go strings are Lean `String`s; the functions of package `strings` and
  `strconv` the handler uses are written out on the character lists.
* A Go `error` is an `Option Err` (`none` is `nil`).
* `*v1alpha1.SamplesResource` values are addresses into a heap of
  `SamplesResource` records (`Option Nat`, `none` is the nil pointer), so
  that writes through one pointer are seen through every alias.  Secrets,
  image streams and templates are never written through a shared pointer by
  the handler and are plain values.
* The adapters behind the handler's interface fields (`sdkwrapper`,
  `imageclientwrapper`, ...) are the fields of `Env`.  Every adapter call is
  appended to `Machine.calls`; an adapter answers as a function of the calls
  issued so far and of its arguments, and does not write through the
  pointers it is given.
* A nil-pointer dereference ends a function with `Outcome.panic`, the
  machine being the one reached at that point.
-/

namespace SamplesOperator

/-! ## Definitions -/

/-! ### Strings and numbers -/

/-- Go `strings.HasPrefix s old`. -/
def stringsHasPrefix (s old : String) : Bool :=
  old.data.isPrefixOf s.data

/-- Go `strings.HasSuffix s suffix`. -/
def stringsHasSuffix (s suffix : String) : Bool :=
  suffix.data.isSuffixOf s.data

/-- First occurrence replacement on character lists: the body of Go
`strings.Replace s old new 1`. -/
def replaceFirstChars (old new : List Char) : List Char → List Char
  | [] => if old.isPrefixOf [] then new else []
  | c :: cs =>
    if old.isPrefixOf (c :: cs) then new ++ (c :: cs).drop old.length
    else c :: replaceFirstChars old new cs

/-- Go `strings.Replace s old new 1`. -/
def stringsReplace1 (s old new : String) : String :=
  ⟨replaceFirstChars old.data new.data s.data⟩

/-- Value of a decimal digit, `none` for any other character. -/
def digitValue (c : Char) : Option Nat :=
  if '0' ≤ c ∧ c ≤ '9' then some (c.toNat - '0'.toNat) else none

/-- The loop of Go `strconv.ParseUint` in base 10 with 64 bits, `acc` being
the value read so far: the characters are read from the left; a character
that is not a digit ends the loop with a syntax error (`none`); a digit with
which the value would exceed 2^64 - 1 ends it with the range error, whose
value is 2^64 - 1, and the characters after it are not read. -/
def parseDigits : List Char → Nat → Option Nat
  | [], acc => some acc
  | c :: cs, acc =>
    match digitValue c with
    | some d =>
      if acc * 10 + d > 2 ^ 64 - 1 then some (2 ^ 64 - 1)
      else parseDigits cs (acc * 10 + d)
    | none => none

/-- Go `strconv.ParseUint` in base 10 with 64 bits: a syntax error (`none`)
on the empty string, the loop otherwise. -/
def parseUnsigned : List Char → Option Nat
  | [] => none
  | c :: cs => parseDigits (c :: cs) 0

/-- Go `strconv.Atoi` with the error dropped (`v, _ := strconv.Atoi(s)`) on a
64-bit platform: the sign is taken off, the rest goes through `ParseUint`,
and the value is 0 on a syntax error and the nearest bound of `int64` on a
range error, that of `ParseUint` included. -/
def Atoi (s : String) : Int :=
  match s.data with
  | '-' :: cs =>
    match parseUnsigned cs with
    | some n => if n > 2 ^ 63 then -(2 ^ 63 : Int) else -(n : Int)
    | none => 0
  | '+' :: cs =>
    match parseUnsigned cs with
    | some n => if n ≥ 2 ^ 63 then (2 ^ 63 - 1 : Int) else (n : Int)
    | none => 0
  | cs =>
    match parseUnsigned cs with
    | some n => if n ≥ 2 ^ 63 then (2 ^ 63 - 1 : Int) else (n : Int)
    | none => 0

/-! ### Errors -/

/-- The errors the handler tells apart (`kerrors.IsNotFound`, `IsConflict`,
`IsAlreadyExists`); every other error, the ones made by `fmt.Errorf`
included, is `other` with its text. -/
inductive Err where
  | notFound
  | conflict
  | alreadyExists
  | other (msg : String)
  deriving DecidableEq, Repr

/-- The test `kerrors.IsNotFound`. -/
def IsNotFound : Option Err → Bool
  | some .notFound => true
  | _ => false

/-- The test `kerrors.IsConflict`. -/
def IsConflict : Option Err → Bool
  | some .conflict => true
  | _ => false

/-- The test `kerrors.IsAlreadyExists`. -/
def IsAlreadyExists : Option Err → Bool
  | some .alreadyExists => true
  | _ => false

/-! ### Constants -/

/-- Content root of the RHEL samples for x86_64 (handler.go 40). -/
def x86OCPContentRootDir : String := "/opt/openshift/operator/ocp-x86_64"

/-- Content root of the community samples for x86_64 (handler.go 41). -/
def x86OKDContentRootDir : String := "/opt/openshift/operator/okd-x86_64"

/-- Content root of the RHEL samples for ppc64le (handler.go 42). -/
def ppc64OCPContentRootDir : String := "/opt/openshift/operator/ocp-ppc64le"

/-- The primary architecture tag (handler.go 43). -/
def x86 : String := "x86_64"

/-- The secondary architecture tag (handler.go 44). -/
def ppc : String := "ppc64le"

/-- Modelled from the spec: `v1alpha1.RHELSamplesDistribution`, declared in
package `v1alpha1`; the install type the handler's own error text calls
`rhel`. -/
def RHELSamplesDistribution : String := "rhel"

/-- Modelled from the spec: `v1alpha1.CentosSamplesDistribution`, declared in
package `v1alpha1`; the install type the handler's own error text calls
`centos`. -/
def CentosSamplesDistribution : String := "centos"

/-- Modelled from the spec: `v1alpha1.SamplesResourceName`, the fixed
well-known name of the singleton instance, declared in package `v1alpha1`. -/
def SamplesResourceName : String := "openshift-samples"

/-- Modelled from the spec: `v1alpha1.SamplesRegistryCredentials`, the fixed
well-known name of the registry credential, declared in package
`v1alpha1`. -/
def SamplesRegistryCredentials : String := "samples-registry-credentials"

/-- The type `corev1.ConditionStatus`, a string type. -/
abbrev ConditionStatus := String

/-- The constant `corev1.ConditionTrue`. -/
def ConditionTrue : ConditionStatus := "True"

/-- The constant `corev1.ConditionFalse`. -/
def ConditionFalse : ConditionStatus := "False"

/-- The constant `corev1.ConditionUnknown`. -/
def ConditionUnknown : ConditionStatus := "Unknown"

/-! ### Data model -/

/-- Modelled from the spec: `v1alpha1.SamplesResourceConditionType`, declared
in package `v1alpha1`: the two condition kinds the handler sets and the two
failure kinds it passes to `processError`. -/
inductive SamplesResourceConditionType where
  | SamplesExist
  | ImportCredentialsExist
  | SamplesUpdateFailed
  | SecretUpdateFailed
  deriving DecidableEq, Repr

/-- Modelled from the spec: `v1alpha1.SamplesResourceCondition`, declared in
package `v1alpha1`: status, the two timestamps and the message of one
condition kind. -/
structure SamplesResourceCondition where
  type : SamplesResourceConditionType
  status : ConditionStatus
  lastUpdateTime : Nat
  lastTransitionTime : Nat
  message : String

/-- Modelled from the spec: the type of `SamplesResource.Spec`, declared in
package `v1alpha1`: the fields of the spec the handler reads and writes. -/
structure SamplesResourceSpec where
  architectures : List String
  installType : String
  samplesRegistry : String
  skippedTemplates : List String
  skippedImagestreams : List String

/-- Modelled from the spec: `v1alpha1.SamplesResource`, declared in package
`v1alpha1`; `conditions` is the spec's mapping from condition kind to
condition. -/
structure SamplesResource where
  name : String
  nspace : String
  resourceVersion : String
  kind : String
  apiVersion : String
  spec : SamplesResourceSpec
  conditions : SamplesResourceConditionType → SamplesResourceCondition

/-- Modelled from the spec: `(*SamplesResource).Condition`, declared in
package `v1alpha1`: the condition the mapping holds for kind `c`. -/
def SamplesResource.Condition (s : SamplesResource)
    (c : SamplesResourceConditionType) : SamplesResourceCondition :=
  { s.conditions c with type := c }

/-- Modelled from the spec: `(*SamplesResource).ConditionUpdate`, declared in
package `v1alpha1`: stores a condition under its kind. -/
def SamplesResource.ConditionUpdate (s : SamplesResource)
    (c : SamplesResourceCondition) : SamplesResource :=
  { s with conditions := fun k => if k = c.type then c else s.conditions k }

/-- Modelled from the spec: `(*SamplesResource).ConditionTrue`, declared in
package `v1alpha1`: whether the condition of kind `c` has status True. -/
def SamplesResource.ConditionTrue (s : SamplesResource)
    (c : SamplesResourceConditionType) : Bool :=
  (s.Condition c).status == SamplesOperator.ConditionTrue

/-- The zero value `v1alpha1.SamplesResource{}`. -/
def SamplesResource.zero : SamplesResource where
  name := ""
  nspace := ""
  resourceVersion := ""
  kind := ""
  apiVersion := ""
  spec := ⟨[], "", "", [], []⟩
  conditions := fun c => ⟨c, "", 0, 0, ""⟩

/-- The type `corev1.ObjectReference`, the fields the handler uses. -/
structure ObjectReference where
  kind : String
  name : String
  deriving DecidableEq, Repr

/-- The type `imagev1.TagReference`; `from` is a pointer and may be nil. -/
structure TagReference where
  name : String
  fromRef : Option ObjectReference
  deriving DecidableEq, Repr

/-- The type `imagev1.ImageStream`, the fields the handler uses. -/
structure ImageStream where
  name : String
  resourceVersion : String
  dockerImageRepository : String
  tags : List TagReference
  deriving DecidableEq, Repr

/-- The type `templatev1.Template`, the fields the handler uses. -/
structure Template where
  name : String
  resourceVersion : String
  body : String
  deriving DecidableEq, Repr

/-- The type `corev1.Secret`, the fields the handler uses. -/
structure Secret where
  name : String
  nspace : String
  resourceVersion : String
  uid : String
  data : String
  deriving DecidableEq, Repr

/-- The interface `os.FileInfo`, the two methods the handler calls. -/
structure FileInfo where
  name : String
  isDir : Bool
  deriving DecidableEq, Repr

/-! ### GetBaseDir and updateDockerPullSpec -/

/-- The method `Handler.GetBaseDir` (handler.go 494-518): the named results `dir` and
`err` start at their zero values and one of them is assigned. -/
def GetBaseDir (arch : String) (opcfg : SamplesResource) : String × Option Err :=
  if arch = x86 then
    if opcfg.spec.installType = RHELSamplesDistribution then
      (x86OCPContentRootDir, none)
    else if opcfg.spec.installType = CentosSamplesDistribution then
      (x86OKDContentRootDir, none)
    else
      ("", some (.other ("invalid install type " ++ opcfg.spec.installType ++
        " specified, should be rhel or centos")))
  else if arch = ppc then
    if opcfg.spec.installType = CentosSamplesDistribution then
      ("", some (.other "ppc64le architecture and centos install are not currently supported"))
    else if opcfg.spec.installType = RHELSamplesDistribution then
      (ppc64OCPContentRootDir, none)
    else
      ("", some (.other ("invalid install type " ++ opcfg.spec.installType ++
        " specified, should be rhel or centos")))
  else
    ("", some (.other ("architecture " ++ arch ++ " unsupported; only support " ++
      x86 ++ " and " ++ ppc)))

/-- The inner loop of `updateDockerPullSpec` (handler.go 464-470 and
477-485 for a name that is checked): the first `old` of `oldies` that `s`
starts with is replaced by `registry`; `none` when no `old` matched
(`replaced` stays false). -/
def replaceFirstMatch (registry : String) (s : String) : List String → Option String
  | [] => none
  | old :: oldies =>
    if stringsHasPrefix s old then some (stringsReplace1 s old registry)
    else replaceFirstMatch registry s oldies

/-- One iteration of the loop over the tags (handler.go 475-489); `none` is
the nil-pointer dereference of `tagref.From.Name` at line 487. -/
def updateTag (oldies : List String) (registry : String) (tagref : TagReference) :
    Option TagReference :=
  match tagref.fromRef with
  | none => none
  | some fr =>
    let replaced : Option String :=
      if fr.kind = "DockerImage" then replaceFirstMatch registry fr.name oldies else none
    match replaced with
    | some n => some { tagref with fromRef := some { fr with name := n } }
    | none => some { tagref with fromRef := some { fr with name := registry ++ "/" ++ fr.name } }

/-- The loop over the tags (handler.go 475-489): the tags as they are when
the loop ends, and whether it ended in a panic. -/
def updateTags (oldies : List String) (registry : String) :
    List TagReference → List TagReference × Bool
  | [] => ([], false)
  | tagref :: rest =>
    match updateTag oldies registry tagref with
    | none => (tagref :: rest, true)
    | some t =>
      let r := updateTags oldies registry rest
      (t :: r.1, r.2)

/-- What `updateDockerPullSpec` leaves behind: it writes through both of its
pointer arguments. -/
structure PullSpecResult where
  imagestream : ImageStream
  opcfg : SamplesResource
  panicked : Bool

/-- The method `Handler.updateDockerPullSpec` (handler.go 461-492). -/
def updateDockerPullSpec (oldies : List String) (imagestream : ImageStream)
    (opcfg : SamplesResource) : PullSpecResult :=
  if opcfg.spec.samplesRegistry.length > 0 then
    let r1 : ImageStream × SamplesResource :=
      match replaceFirstMatch opcfg.spec.samplesRegistry imagestream.dockerImageRepository oldies with
      | some repo => ({ imagestream with dockerImageRepository := repo }, opcfg)
      | none =>
        (imagestream,
         { opcfg with spec := { opcfg.spec with
             samplesRegistry := opcfg.spec.samplesRegistry ++ "/" ++ imagestream.dockerImageRepository } })
    let ts := updateTags oldies r1.2.spec.samplesRegistry r1.1.tags
    ⟨{ r1.1 with tags := ts.1 }, r1.2, ts.2⟩
  else
    ⟨imagestream, opcfg, false⟩

/-! ### Adapters, calls and the machine -/

/-- One call on an adapter, with its arguments. -/
inductive Call where
  | sdkwrapperUpdate (sr : SamplesResource)
  | sdkwrapperCreate (sr : SamplesResource)
  | sdkwrapperGet (name nspace : String)
  | secretclientwrapperGet (nspace name : String)
  | secretclientwrapperCreate (nspace : String) (s : Secret)
  | secretclientwrapperUpdate (nspace : String) (s : Secret)
  | secretclientwrapperDelete (nspace name : String)
  | imageclientwrapperGet (nspace name : String)
  | imageclientwrapperCreate (nspace : String) (is : ImageStream)
  | imageclientwrapperUpdate (nspace : String) (is : ImageStream)
  | templateclientwrapperGet (nspace name : String)
  | templateclientwrapperCreate (nspace : String) (t : Template)
  | templateclientwrapperUpdate (nspace : String) (t : Template)
  | filefinderList (dir : String)
  | fileimagegetterGet (path : String)
  | filetemplategetterGet (path : String)

/-- The adapters behind the handler's interface fields, and the two library
functions whose values the handler only passes on (`kapis.Now`,
`fmt.Sprintf`).  The first argument of an adapter is the list of calls
issued before this one. -/
structure Env where
  now : List Call → Nat
  sprintf : String → Option Err → List String → String
  sdkwrapperUpdate : List Call → SamplesResource → Option Err
  sdkwrapperCreate : List Call → SamplesResource → Option Err
  sdkwrapperGet : List Call → String → String → Option SamplesResource × Option Err
  secretclientwrapperGet : List Call → String → String → Option Secret × Option Err
  secretclientwrapperCreate : List Call → String → Secret → Option Err
  secretclientwrapperUpdate : List Call → String → Secret → Option Err
  secretclientwrapperDelete : List Call → String → String → Option Err
  imageclientwrapperGet : List Call → String → String → Option ImageStream × Option Err
  imageclientwrapperCreate : List Call → String → ImageStream → Option Err
  imageclientwrapperUpdate : List Call → String → ImageStream → Option Err
  templateclientwrapperGet : List Call → String → String → Option Template × Option Err
  templateclientwrapperCreate : List Call → String → Template → Option Err
  templateclientwrapperUpdate : List Call → String → Template → Option Err
  filefinderList : List Call → String → List FileInfo × Option Err
  fileimagegetterGet : List Call → String → Option ImageStream × Option Err
  filetemplategetterGet : List Call → String → Option Template × Option Err

/-- The mutable fields of `Handler` (handler.go 78-105); the two maps are
kept as their key lists. -/
structure Handler where
  samplesResource : Option Nat
  registrySecret : Option Secret
  nspace : String
  skippedTemplates : List String
  skippedImagestreams : List String

/-- The handler, the heap of `SamplesResource` objects with the next free
address, and the adapter calls issued so far, oldest first. -/
structure Machine where
  h : Handler
  heap : Nat → SamplesResource
  next : Nat
  calls : List Call

/-- Records an adapter call. -/
def Machine.call (m : Machine) (c : Call) : Machine :=
  { m with calls := m.calls ++ [c] }

/-- Writes through the pointer `p`. -/
def Machine.write (m : Machine) (p : Nat) (v : SamplesResource) : Machine :=
  { m with heap := fun q => if q = p then v else m.heap q }

/-- Places a new object at the next free address. -/
def Machine.alloc (m : Machine) (v : SamplesResource) : Nat × Machine :=
  (m.next, { m with heap := fun q => if q = m.next then v else m.heap q, next := m.next + 1 })

/-- Places the object an adapter returned, if it returned one. -/
def Machine.allocOpt (m : Machine) : Option SamplesResource → Option Nat × Machine
  | none => (none, m)
  | some v => (some m.next, (m.alloc v).2)

/-- Assigns `h.samplesResource`. -/
def Machine.setSamplesResource (m : Machine) (p : Option Nat) : Machine :=
  { m with h := { m.h with samplesResource := p } }

/-- Assigns `h.registrySecret`. -/
def Machine.setRegistrySecret (m : Machine) (s : Option Secret) : Machine :=
  { m with h := { m.h with registrySecret := s } }

/-- How a function of the handler ends. -/
inductive Outcome where
  | returned (err : Option Err)
  | panic
  | outOfFuel
  deriving DecidableEq

/-- Result of a piece of a loop body: `none` when control goes on to the
next statement. -/
def leave (r : Outcome × Machine) : Option Outcome × Machine := (some r.1, r.2)

/-! ### processError and GoodConditionUpdate -/

/-- The condition transition of `GoodConditionUpdate` (handler.go 108,
114-117 and 128-132): `sr` with its condition `condition` set to
`newStatus` and both timestamps set to `now`. -/
def stamped (sr : SamplesResource) (condition : SamplesResourceConditionType)
    (newStatus : ConditionStatus) (now : Nat) : SamplesResource :=
  sr.ConditionUpdate { sr.Condition condition with
    lastUpdateTime := now, status := newStatus, lastTransitionTime := now }

/-- The error transition of `processError` (handler.go 353-357): `sr` with
its condition `k` set to Unknown, stamped `now`, with the message `log`. -/
def stampedUnknown (sr : SamplesResource) (k : SamplesResourceConditionType)
    (log : String) (now : Nat) : SamplesResource :=
  sr.ConditionUpdate { sr.Condition k with
    lastUpdateTime := now, status := ConditionUnknown,
    lastTransitionTime := now, message := log }

/-- The method `Handler.processError` (handler.go 331-367). -/
def processError (env : Env) (opcfg : Option Nat) (ctype : SamplesResourceConditionType)
    (err : Option Err) (msg : String) (args : List String) (m : Machine) : Outcome × Machine :=
  let log := env.sprintf msg err args
  let kind : Option SamplesResourceConditionType :=
    match ctype with
    | .SecretUpdateFailed => some .ImportCredentialsExist
    | .SamplesUpdateFailed => some .SamplesExist
    | _ => none
  match kind with
  | none => (.returned err, m)
  | some k =>
    match opcfg with
    | none => (.panic, m)
    | some p =>
      if ((m.heap p).Condition k).status ≠ ConditionUnknown then
        let now := env.now m.calls
        let m := m.write p (stampedUnknown (m.heap p) k log now)
        -- err2 is only logged
        let m := m.call (.sdkwrapperUpdate (m.heap p))
        (.returned err, m)
      else
        (.returned err, m)

/-- The second attempt of `GoodConditionUpdate` (handler.go 124-137), after
the first `Update` met a conflict. -/
def retryConditionUpdate (env : Env) (p : Nat) (now : Nat) (newStatus : ConditionStatus)
    (condition : SamplesResourceConditionType) (m : Machine) : Outcome × Machine :=
  let got := env.sdkwrapperGet m.calls (m.heap p).name (m.heap p).nspace
  let m := m.call (.sdkwrapperGet (m.heap p).name (m.heap p).nspace)
  let a := m.allocOpt got.1
  let srcfg := a.1
  let m := a.2
  match got.2 with
  | some e =>
    processError env srcfg .SamplesUpdateFailed (some e)
      "failed to retrieve samples resource after update conflict: %v" [] m
  | none =>
    match srcfg with
    | none => (.panic, m)
    | some q =>
      let m := m.write q (stamped (m.heap q) condition newStatus now)
      let err := env.sdkwrapperUpdate m.calls (m.heap q)
      let m := m.call (.sdkwrapperUpdate (m.heap q))
      match err with
      | some e =>
        processError env (some q) .SamplesUpdateFailed (some e)
          "failed to update status after conflict retry: %v" [] m
      | none => (.returned none, m.setSamplesResource (some q))

/-- The method `Handler.GoodConditionUpdate` (handler.go 107-147). -/
def GoodConditionUpdate (env : Env) (srcfg : Option Nat) (newStatus : ConditionStatus)
    (condition : SamplesResourceConditionType) (m : Machine) : Outcome × Machine :=
  match srcfg with
  | none => (.panic, m)
  | some p =>
    if ((m.heap p).Condition condition).status ≠ newStatus then
      let now := env.now m.calls
      let m := m.write p (stamped (m.heap p) condition newStatus now)
      let err := env.sdkwrapperUpdate m.calls (m.heap p)
      let m := m.call (.sdkwrapperUpdate (m.heap p))
      match err with
      | some e =>
        if ¬ IsConflict (some e) then
          processError env (some p) .SamplesUpdateFailed (some e)
            "failed adding success condition to config: %v" [] m
        else
          retryConditionUpdate env p now newStatus condition m
      | none => (.returned none, m.setSamplesResource (some p))
    else
      (.returned none, m.setSamplesResource (some p))

/-! ### CreateDefaultResourceIfNeeded and manageDockerCfgSecret -/

/-- The method `Handler.CreateDefaultResourceIfNeeded` (handler.go 149-179). -/
def CreateDefaultResourceIfNeeded (env : Env) (m : Machine) : Outcome × Machine :=
  if m.h.samplesResource = none then
    let a := m.alloc { SamplesResource.zero with
      name := SamplesResourceName
      nspace := m.h.nspace
      kind := "SamplesResource"
      apiVersion := "samplesoperator.config.openshift.io/v1alpha1"
      spec := { SamplesResource.zero.spec with
        architectures := [x86], installType := CentosSamplesDistribution } }
    let srcfg := a.1
    let m := a.2
    let err := env.sdkwrapperCreate m.calls (m.heap srcfg)
    let m := m.call (.sdkwrapperCreate (m.heap srcfg))
    match err with
    | some e =>
      if ¬ IsAlreadyExists (some e) then
        processError env (some srcfg) .SamplesUpdateFailed (some e)
          "failed creating default resource: %v" [] m
      else
        (.returned (some e), m)
    | none => GoodConditionUpdate env (some srcfg) ConditionTrue .SamplesExist m
  else
    (.returned none, m)

/-- The tail of `manageDockerCfgSecret` (handler.go 236-244). -/
def finishDockerCfgSecret (env : Env) (samplesResource : Option Nat) (secret : Secret)
    (newStatus : ConditionStatus) (m : Machine) : Outcome × Machine :=
  match GoodConditionUpdate env samplesResource newStatus .ImportCredentialsExist m with
  | (.returned none, m) =>
    (.returned none, (m.setRegistrySecret (some secret)).setSamplesResource samplesResource)
  | r => r

/-- The write of the mirrored secret in `manageDockerCfgSecret` (handler.go
222-234) and what follows it: `Update` when the `Get` found a secret `s`,
`Create` otherwise. -/
def writeDockerCfgSecret (env : Env) (samplesResource : Option Nat) (secret : Secret)
    (secretToCreate : Secret) (s : Option Secret) (m : Machine) : Outcome × Machine :=
  let w : Option Err × Machine :=
    match s with
    | some _ =>
      (env.secretclientwrapperUpdate m.calls "openshift" secretToCreate,
       m.call (.secretclientwrapperUpdate "openshift" secretToCreate))
    | none =>
      (env.secretclientwrapperCreate m.calls "openshift" secretToCreate,
       m.call (.secretclientwrapperCreate "openshift" secretToCreate))
  if w.1 ≠ none then
    processError env samplesResource .SecretUpdateFailed w.1
      "failed to create/update registry dockerconfig secret in openshif namespace : %v" [] w.2
  else
    finishDockerCfgSecret env samplesResource secret ConditionTrue
      (w.2.setRegistrySecret (some secret))

/-- The method `Handler.manageDockerCfgSecret` (handler.go 181-245). -/
def manageDockerCfgSecret (env : Env) (deleted : Bool) (samplesResource : Option Nat)
    (secret : Secret) (m : Machine) : Outcome × Machine :=
  if secret.name ≠ SamplesRegistryCredentials then (.returned none, m)
  else if m.h.samplesResource = none then
    if ¬ deleted then (.returned none, m.setRegistrySecret (some secret))
    else (.returned none, m)
  else if deleted then
    let err := env.secretclientwrapperDelete m.calls "openshift" secret.name
    let m := m.call (.secretclientwrapperDelete "openshift" secret.name)
    if err ≠ none ∧ ¬ IsNotFound err then
      processError env samplesResource .SecretUpdateFailed err
        "failed to delete before create dockerconfig secret the openshift namespace: %v" [] m
    else
      finishDockerCfgSecret env samplesResource secret ConditionFalse (m.setRegistrySecret none)
  else if (match m.h.registrySecret with
      | some cur => decide (Atoi secret.resourceVersion ≤ Atoi cur.resourceVersion)
      | none => false) then
    (.returned none, m)
  else
    let secretToCreate : Secret := { secret with nspace := "", resourceVersion := "", uid := "" }
    let got := env.secretclientwrapperGet m.calls "openshift" secret.name
    let m := m.call (.secretclientwrapperGet "openshift" secret.name)
    if got.2 ≠ none ∧ ¬ IsNotFound got.2 then
      processError env samplesResource .SecretUpdateFailed got.2
        "failed to get registry dockerconfig secret in openshift namespace : %v" [] m
    else
      let s : Option Secret := if got.2 ≠ none then none else got.1
      writeDockerCfgSecret env samplesResource secret secretToCreate s m

/-! ### processFiles -/

/-- The two calls of `updateDockerPullSpec` in `processFiles` (handler.go
391-396), one for each install type. -/
def updatePullSpecForInstallType (imagestream : ImageStream) (opcfg : SamplesResource) :
    PullSpecResult :=
  let r1 : PullSpecResult :=
    if opcfg.spec.installType = CentosSamplesDistribution then
      updateDockerPullSpec ["docker.io"] imagestream opcfg
    else ⟨imagestream, opcfg, false⟩
  if r1.panicked then r1
  else if r1.opcfg.spec.installType = RHELSamplesDistribution then
    updateDockerPullSpec ["registry.redhat.io", "registry.access.redhat.com"]
      r1.imagestream r1.opcfg
  else r1

/-- The fetch-or-create-or-update of one image stream (handler.go 397-420). -/
def applyImageStream (env : Env) (opcfg : Option Nat) (imagestream : ImageStream)
    (m : Machine) : Option Outcome × Machine :=
  let got := env.imageclientwrapperGet m.calls "openshift" imagestream.name
  let m := m.call (.imageclientwrapperGet "openshift" imagestream.name)
  if got.2 ≠ none ∧ ¬ IsNotFound got.2 then
    leave (processError env opcfg .SamplesUpdateFailed got.2
      "unexpected imagestream get error: %v" [] m)
  else
    let is : Option ImageStream := if IsNotFound got.2 then none else got.1
    match is with
    | none =>
      let err := env.imageclientwrapperCreate m.calls "openshift" imagestream
      let m := m.call (.imageclientwrapperCreate "openshift" imagestream)
      if err ≠ none then
        leave (processError env opcfg .SamplesUpdateFailed err
          "imagestream create error: %v" [] m)
      else (none, m)
    | some stored =>
      let imagestream := { imagestream with resourceVersion := stored.resourceVersion }
      let err := env.imageclientwrapperUpdate m.calls "openshift" imagestream
      let m := m.call (.imageclientwrapperUpdate "openshift" imagestream)
      if err ≠ none then
        leave (processError env opcfg .SamplesUpdateFailed err
          "imagestream update error: %v" [] m)
      else (none, m)

/-- The image-stream part of the body of the loop of `processFiles`
(handler.go 384-422). -/
def processImageStreamFile (env : Env) (dir : String) (file : FileInfo) (opcfg : Option Nat)
    (m : Machine) : Option Outcome × Machine :=
  if stringsHasSuffix dir "imagestreams" then
    let got := env.fileimagegetterGet m.calls (dir ++ "/" ++ file.name)
    let m := m.call (.fileimagegetterGet (dir ++ "/" ++ file.name))
    if got.2 ≠ none then
      leave (processError env opcfg .SamplesUpdateFailed got.2
        "%v error reading file %s" [dir ++ "/" ++ file.name] m)
    else
      match got.1 with
      | none => (some .panic, m)
      | some imagestream =>
        if imagestream.name ∈ m.h.skippedImagestreams then (none, m)
        else
          match opcfg with
          | none => (some .panic, m)
          | some p =>
            let r := updatePullSpecForInstallType imagestream (m.heap p)
            let m := m.write p r.opcfg
            if r.panicked then (some .panic, m)
            else applyImageStream env opcfg r.imagestream m
  else (none, m)

/-- The fetch-or-create-or-update of one template (handler.go 431-454). -/
def applyTemplate (env : Env) (opcfg : Option Nat) (template : Template)
    (m : Machine) : Option Outcome × Machine :=
  let got := env.templateclientwrapperGet m.calls "openshift" template.name
  let m := m.call (.templateclientwrapperGet "openshift" template.name)
  if got.2 ≠ none ∧ ¬ IsNotFound got.2 then
    leave (processError env opcfg .SamplesUpdateFailed got.2
      "unexpected template get error: %v" [] m)
  else
    let t : Option Template := if IsNotFound got.2 then none else got.1
    match t with
    | none =>
      let err := env.templateclientwrapperCreate m.calls "openshift" template
      let m := m.call (.templateclientwrapperCreate "openshift" template)
      if err ≠ none then
        leave (processError env opcfg .SamplesUpdateFailed err
          "template create error: %v" [] m)
      else (none, m)
    | some stored =>
      let template := { template with resourceVersion := stored.resourceVersion }
      let err := env.templateclientwrapperUpdate m.calls "openshift" template
      let m := m.call (.templateclientwrapperUpdate "openshift" template)
      if err ≠ none then
        leave (processError env opcfg .SamplesUpdateFailed err
          "template update error: %v" [] m)
      else (none, m)

/-- The template part of the body of the loop of `processFiles` (handler.go
424-456). -/
def processTemplateFile (env : Env) (dir : String) (file : FileInfo) (opcfg : Option Nat)
    (m : Machine) : Option Outcome × Machine :=
  if stringsHasSuffix dir "templates" then
    let got := env.filetemplategetterGet m.calls (dir ++ "/" ++ file.name)
    let m := m.call (.filetemplategetterGet (dir ++ "/" ++ file.name))
    if got.2 ≠ none then
      leave (processError env opcfg .SamplesUpdateFailed got.2
        "%v error reading file %s" [dir ++ "/" ++ file.name] m)
    else
      match got.1 with
      | none => (some .panic, m)
      | some template =>
        if template.name ∈ m.h.skippedTemplates then (none, m)
        else applyTemplate env opcfg template m
  else (none, m)

/-- The directory part of the body of the loop of `processFiles` (handler.go
371-381); `recurse` is the recursive call of `processFiles`. -/
def processSubdir (recurse : String → List FileInfo → Machine → Outcome × Machine)
    (env : Env) (dir : String) (file : FileInfo) (opcfg : Option Nat) (m : Machine) :
    Option Outcome × Machine :=
  if file.isDir then
    let got := env.filefinderList m.calls (dir ++ "/" ++ file.name)
    let m := m.call (.filefinderList (dir ++ "/" ++ file.name))
    if got.2 ≠ none then
      leave (processError env opcfg .SamplesUpdateFailed got.2
        "error reading in content: %v" [] m)
    else
      match recurse (dir ++ "/" ++ file.name) got.1 m with
      | (.returned none, m) => (none, m)
      | (o, m) => (some o, m)
  else (none, m)

/-- The body of the loop of `processFiles` (handler.go 371-456) for one
entry: a directory is descended into and then handled as a file too. -/
def processFile (recurse : String → List FileInfo → Machine → Outcome × Machine)
    (env : Env) (dir : String) (file : FileInfo) (opcfg : Option Nat) (m : Machine) :
    Option Outcome × Machine :=
  match processSubdir recurse env dir file opcfg m with
  | (some o, m) => (some o, m)
  | (none, m) =>
    match processImageStreamFile env dir file opcfg m with
    | (some o, m) => (some o, m)
    | (none, m) => processTemplateFile env dir file opcfg m

/-- The loop of `processFiles` (handler.go 370-458). -/
def processFilesLoop (recurse : String → List FileInfo → Machine → Outcome × Machine)
    (env : Env) (dir : String) (opcfg : Option Nat) :
    List FileInfo → Machine → Outcome × Machine
  | [], m => (.returned none, m)
  | file :: rest, m =>
    match processFile recurse env dir file opcfg m with
    | (some o, m) => (o, m)
    | (none, m) => processFilesLoop recurse env dir opcfg rest m

/-- The method `Handler.processFiles` (handler.go 369-459); `fuel` bounds the depth of
the directories descended into, the listings being answers of an adapter. -/
def processFiles : Nat → Env → String → List FileInfo → Option Nat → Machine →
    Outcome × Machine
  | 0, _, _, _, _, m => (.outOfFuel, m)
  | fuel + 1, env, dir, files, opcfg, m =>
    processFilesLoop (fun d fs m => processFiles fuel env d fs opcfg m) env dir opcfg files m

/-! ### Handle -/

/-- The assignment `h.skippedTemplates[st] = true` on the key list of the map. -/
def mapSetTrue (keys : List String) (k : String) : List String :=
  if k ∈ keys then keys else keys ++ [k]

/-- The method `Handler.buildSkipFilters` (handler.go 322-329). -/
def buildSkipFilters (opcfg : SamplesResource) (h : Handler) : Handler :=
  let h := { h with skippedTemplates := opcfg.spec.skippedTemplates.foldl mapSetTrue h.skippedTemplates }
  { h with skippedImagestreams :=
      opcfg.spec.skippedImagestreams.foldl mapSetTrue h.skippedImagestreams }

/-- The field `event.Object`: the two types `Handle` switches on, and any other. -/
inductive EventObject where
  | secret (s : Secret)
  | samplesResource (srcfg : Nat)
  | other

/-- The type `sdk.Event`. -/
structure Event where
  object : EventObject
  deleted : Bool

/-- The version gate of `Handle` (handler.go 275-281): true when the event
is dropped. -/
def staleVersion (srcfg : Nat) (m : Machine) : Bool :=
  match m.h.samplesResource with
  | some cur =>
    decide (Atoi (m.heap srcfg).resourceVersion ≤ Atoi (m.heap cur).resourceVersion)
  | none => false

/-- Steps of `Handle` between the version gate and the loop over the
architectures (handler.go 286-299): replay of the cached secret, skip
filters, defaults of the spec. -/
def prepareSync (env : Env) (srcfg : Nat) (m : Machine) : Option Outcome × Machine :=
  let r : Outcome × Machine :=
    match m.h.registrySecret with
    | some secret =>
      if ¬ (m.heap srcfg).ConditionTrue .ImportCredentialsExist then
        manageDockerCfgSecret env false (some srcfg) secret m
      else (.returned none, m)
    | none => (.returned none, m)
  match r with
  | (.returned _, m) =>
    let m := { m with h := buildSkipFilters (m.heap srcfg) m.h }
    let m :=
      if (m.heap srcfg).spec.architectures.length = 0 then
        m.write srcfg { m.heap srcfg with spec := { (m.heap srcfg).spec with
          architectures := (m.heap srcfg).spec.architectures ++ [x86] } }
      else m
    let m :=
      if (m.heap srcfg).spec.installType.length = 0 then
        m.write srcfg { m.heap srcfg with spec := { (m.heap srcfg).spec with
          installType := CentosSamplesDistribution } }
      else m
    (none, m)
  | (o, m) => (some o, m)

/-- The loop of `Handle` over the architectures (handler.go 301-315). -/
def syncArchitectures (fuel : Nat) (env : Env) (srcfg : Nat) :
    List String → Machine → Option Outcome × Machine
  | [], m => (none, m)
  | arch :: rest, m =>
    let d := GetBaseDir arch (m.heap srcfg)
    if d.2 ≠ none then
      leave (processError env (some srcfg) .SamplesUpdateFailed d.2
        "error determining distro/type : %v" [] m)
    else
      let got := env.filefinderList m.calls d.1
      let m := m.call (.filefinderList d.1)
      if got.2 ≠ none then
        leave (processError env (some srcfg) .SamplesUpdateFailed got.2
          "error reading in content : %v" [] m)
      else
        match processFiles fuel env d.1 got.1 (some srcfg) m with
        | (.returned none, m) => syncArchitectures fuel env srcfg rest m
        | (.returned (some e), m) =>
          leave (processError env (some srcfg) .SamplesUpdateFailed (some e)
            "error processing content : %v" [] m)
        | (o, m) => (some o, m)

/-- The method `Handler.Handle` (handler.go 247-320). -/
def Handle (fuel : Nat) (env : Env) (event : Event) (m : Machine) : Outcome × Machine :=
  match event.object with
  | .secret dockercfgSecret =>
    manageDockerCfgSecret env event.deleted m.h.samplesResource dockercfgSecret m
  | .samplesResource srcfg =>
    if (m.heap srcfg).name ≠ SamplesResourceName then (.returned none, m)
    else if event.deleted then
      CreateDefaultResourceIfNeeded env (m.setSamplesResource none)
    else if staleVersion srcfg m then (.returned none, m)
    else
      match prepareSync env srcfg m with
      | (some o, m) => (o, m)
      | (none, m) =>
        match syncArchitectures fuel env srcfg (m.heap srcfg).spec.architectures m with
        | (some o, m) => (o, m)
        | (none, m) => GoodConditionUpdate env (some srcfg) ConditionTrue .SamplesExist m
  | .other => (.returned none, m)

/-! ### Concrete adapters, instances and machines -/

/-- A `SamplesResource` with the given registry override and nothing else set. -/
def configWithRegistry (registry : String) : SamplesResource :=
  { SamplesResource.zero with spec := { SamplesResource.zero.spec with samplesRegistry := registry } }

/-- Adapters of an empty cluster in which every call succeeds: nothing is
found, every write is accepted, every listing is empty. -/
def quietEnv : Env where
  now := fun _ => 0
  sprintf := fun msg _ _ => msg
  sdkwrapperUpdate := fun _ _ => none
  sdkwrapperCreate := fun _ _ => none
  sdkwrapperGet := fun _ _ _ => (none, some .notFound)
  secretclientwrapperGet := fun _ _ _ => (none, some .notFound)
  secretclientwrapperCreate := fun _ _ _ => none
  secretclientwrapperUpdate := fun _ _ _ => none
  secretclientwrapperDelete := fun _ _ _ => none
  imageclientwrapperGet := fun _ _ _ => (none, some .notFound)
  imageclientwrapperCreate := fun _ _ _ => none
  imageclientwrapperUpdate := fun _ _ _ => none
  templateclientwrapperGet := fun _ _ _ => (none, some .notFound)
  templateclientwrapperCreate := fun _ _ _ => none
  templateclientwrapperUpdate := fun _ _ _ => none
  filefinderList := fun _ _ => ([], none)
  fileimagegetterGet := fun _ _ => (none, some (.other "no such file"))
  filetemplategetterGet := fun _ _ => (none, some (.other "no such file"))

/-- The singleton instance with the given version, architectures and
install type. -/
def instanceWith (version : String) (archs : List String) (installType : String) :
    SamplesResource :=
  { SamplesResource.zero with
    name := SamplesResourceName
    resourceVersion := version
    spec := { SamplesResource.zero.spec with architectures := archs, installType := installType } }

/-- A handler that has seen nothing. -/
def emptyHandler : Handler := ⟨none, none, "ns", [], []⟩

/-- A machine whose heap holds `old` at address 0 and `new` at address 1,
with the handler `h` and no call issued. -/
def twoObjects (h : Handler) (old new : SamplesResource) : Machine :=
  ⟨h, fun q => if q = 0 then old else new, 2, []⟩

/-- Number of `sdkwrapper.Update` calls in a list of calls. -/
def countSdkUpdate : List Call → Nat
  | [] => 0
  | .sdkwrapperUpdate _ :: cs => countSdkUpdate cs + 1
  | _ :: cs => countSdkUpdate cs

/-- Adapters under which every `Update` of the instance meets a conflict and
the re-fetch returns version 8 of the instance. -/
def conflictEnv : Env :=
  { quietEnv with
    sdkwrapperUpdate := fun _ _ => some .conflict
    sdkwrapperGet := fun _ _ _ => (some (instanceWith "8" ["x86_64"] "centos"), none) }

/-- Adapters of an empty cluster whose file reader returns the image stream
`ruby` for every path. -/
def rubyEnv : Env :=
  { quietEnv with
    fileimagegetterGet := fun _ _ => (some ⟨"ruby", "", "docker.io/centos/ruby", []⟩, none) }

/-- A machine that applied version 3 of the instance (address 0) and is
handed version 4 (address 1) with the architectures `archs`. -/
def appliedThenEvent (archs : List String) : Machine :=
  twoObjects { emptyHandler with samplesResource := some 0 }
    (instanceWith "3" ["x86_64"] "centos") (instanceWith "4" archs "centos")

/-- Adapters of an empty cluster whose community content root holds one
directory `imagestreams` with the one file `ruby.json`, the image stream
`ruby`. -/
def treeEnv : Env :=
  { rubyEnv with
    filefinderList := fun _ dir =>
      if dir = "/opt/openshift/operator/okd-x86_64" then ([⟨"imagestreams", true⟩], none)
      else if dir = "/opt/openshift/operator/okd-x86_64/imagestreams" then
        ([⟨"ruby.json", false⟩], none)
      else ([], none) }

/-- The singleton instance with the given version, the primary architecture,
the community distribution and the given skippedImagestreams. -/
def instanceSkipping (version : String) (skipped : List String) : SamplesResource :=
  { SamplesResource.zero with
    name := SamplesResourceName
    resourceVersion := version
    spec := { SamplesResource.zero.spec with
      architectures := ["x86_64"], installType := "centos", skippedImagestreams := skipped } }

/-! ### Predicates on calls and machines -/

/-- Whether a call is a `Create` or `Update` of an image stream named `n`. -/
def Call.writesImageStream (n : String) : Call → Bool
  | .imageclientwrapperCreate _ is => is.name == n
  | .imageclientwrapperUpdate _ is => is.name == n
  | _ => false

/-- Whether a call is a `Create` or `Update` of a template named `n`. -/
def Call.writesTemplate (n : String) : Call → Bool
  | .templateclientwrapperCreate _ t => t.name == n
  | .templateclientwrapperUpdate _ t => t.name == n
  | _ => false

/-- The call writes no image stream named in `si` and no template named in
`st`. -/
def CallAvoids (si st : List String) (c : Call) : Prop :=
  (∀ n ∈ si, c.writesImageStream n = false) ∧ (∀ n ∈ st, c.writesTemplate n = false)

/-- What a synchronization pass with the instance `opcfg` may do to a
machine: the handler, the next free address and every object but `opcfg`
stay as they are, and the calls added write no definition that the skip sets
name. -/
def SyncFrame (opcfg : Option Nat) (m m' : Machine) : Prop :=
  m'.h = m.h ∧ m'.next = m.next ∧ (∀ q, opcfg ≠ some q → m'.heap q = m.heap q) ∧
  ∃ new, m'.calls = m.calls ++ new ∧
    ∀ c ∈ new, CallAvoids m.h.skippedImagestreams m.h.skippedTemplates c

/-- The skip sets of the handler hold the names of `si` and `st`. -/
def Skips (si st : List String) (m : Machine) : Prop :=
  (∀ n ∈ si, n ∈ m.h.skippedImagestreams) ∧ (∀ n ∈ st, n ∈ m.h.skippedTemplates)

/-- From `m` to `m'` the calls added write no image stream named in `si` and
no template named in `st`, and the skip sets of `m'` hold these names. -/
def Keeps (si st : List String) (m m' : Machine) : Prop :=
  Skips si st m' ∧ ∃ new, m'.calls = m.calls ++ new ∧ ∀ c ∈ new, CallAvoids si st c

/-! ### Sequences of events -/

/-- An event as the framework delivers it: the object by value. -/
inductive Delivery where
  | secret (s : Secret) (deleted : Bool)
  | samplesResource (sr : SamplesResource) (deleted : Bool)

/-- Delivery of one event: the framework hands `Handle` a pointer to a new
object. -/
def deliver (fuel : Nat) (env : Env) (d : Delivery) (m : Machine) : Outcome × Machine :=
  match d with
  | .secret s deleted => Handle fuel env ⟨.secret s, deleted⟩ m
  | .samplesResource sr deleted =>
    Handle fuel env ⟨.samplesResource (m.alloc sr).1, deleted⟩ (m.alloc sr).2

/-- Delivery of a sequence of events, one at a time; an event that `Handle`
returns from, with or without an error, is followed by the next one, and a
panic ends the process. -/
def runEvents (fuel : Nat) (env : Env) : List Delivery → Machine → Machine
  | [], m => m
  | d :: ds, m =>
    match deliver fuel env d m with
    | (.returned _, m') => runEvents fuel env ds m'
    | (_, m') => m'

/-! ### The registry credential and the default instance -/

/-- Whether a call is a `Create` or `Update` of a secret. -/
def Call.writesSecret : Call → Bool
  | .secretclientwrapperCreate _ _ => true
  | .secretclientwrapperUpdate _ _ => true
  | _ => false

/-- A registry credential with the well-known name, as a secret event
carries it. -/
def credential : Secret :=
  ⟨SamplesRegistryCredentials, "openshift-cluster-samples-operator", "3", "uid-1", "dockercfg"⟩

/-- A machine whose handler has observed nothing: no instance, no secret, no
object on the heap, no call issued. -/
def freshMachine : Machine :=
  ⟨emptyHandler, fun _ => SamplesResource.zero, 0, []⟩

/-- A machine that applied version 3 of the instance (address 0) and caches
the mirrored credential. -/
def mirroredMachine : Machine :=
  twoObjects { emptyHandler with samplesResource := some 0, registrySecret := some credential }
    (instanceWith "3" ["x86_64"] "centos") (instanceWith "3" ["x86_64"] "centos")

/-- The object `CreateDefaultResourceIfNeeded` builds (handler.go 158-164)
in the namespace `nspace`. -/
def defaultSamplesResource (nspace : String) : SamplesResource :=
  { SamplesResource.zero with
    name := SamplesResourceName
    nspace := nspace
    kind := "SamplesResource"
    apiVersion := "samplesoperator.config.openshift.io/v1alpha1"
    spec := { SamplesResource.zero.spec with
      architectures := [x86], installType := CentosSamplesDistribution } }

/-- Adapters of a cluster in which the singleton instance already exists:
its `Create` reports already-exists. -/
def existsEnv : Env :=
  { quietEnv with sdkwrapperCreate := fun _ _ => some .alreadyExists }

/-! ## Theorems -/

/-! ### Lemmas on the machine and on processError -/

@[simp] theorem Machine.call_calls (m : Machine) (c : Call) : (m.call c).calls = m.calls ++ [c] := rfl

@[simp] theorem Machine.call_h (m : Machine) (c : Call) : (m.call c).h = m.h := rfl

@[simp] theorem Machine.call_heap (m : Machine) (c : Call) : (m.call c).heap = m.heap := rfl

@[simp] theorem Machine.call_next (m : Machine) (c : Call) : (m.call c).next = m.next := rfl

@[simp] theorem Machine.write_calls (m : Machine) (p : Nat) (v : SamplesResource) :
    (m.write p v).calls = m.calls := rfl

@[simp] theorem Machine.write_h (m : Machine) (p : Nat) (v : SamplesResource) :
    (m.write p v).h = m.h := rfl

@[simp] theorem Machine.write_next (m : Machine) (p : Nat) (v : SamplesResource) :
    (m.write p v).next = m.next := rfl

@[simp] theorem Machine.write_heap_same (m : Machine) (p : Nat) (v : SamplesResource) :
    (m.write p v).heap p = v := by simp [Machine.write]

theorem Machine.write_heap (m : Machine) (p q : Nat) (v : SamplesResource) :
    (m.write p v).heap q = if q = p then v else m.heap q := rfl

@[simp] theorem Machine.setSamplesResource_calls (m : Machine) (p : Option Nat) :
    (m.setSamplesResource p).calls = m.calls := rfl

@[simp] theorem Machine.setSamplesResource_heap (m : Machine) (p : Option Nat) :
    (m.setSamplesResource p).heap = m.heap := rfl

@[simp] theorem Machine.setSamplesResource_next (m : Machine) (p : Option Nat) :
    (m.setSamplesResource p).next = m.next := rfl

@[simp] theorem Machine.setSamplesResource_h (m : Machine) (p : Option Nat) :
    (m.setSamplesResource p).h = { m.h with samplesResource := p } := rfl

@[simp] theorem Machine.setRegistrySecret_calls (m : Machine) (s : Option Secret) :
    (m.setRegistrySecret s).calls = m.calls := rfl

@[simp] theorem Machine.setRegistrySecret_heap (m : Machine) (s : Option Secret) :
    (m.setRegistrySecret s).heap = m.heap := rfl

@[simp] theorem Machine.setRegistrySecret_next (m : Machine) (s : Option Secret) :
    (m.setRegistrySecret s).next = m.next := rfl

@[simp] theorem Machine.setRegistrySecret_h (m : Machine) (s : Option Secret) :
    (m.setRegistrySecret s).h = { m.h with registrySecret := s } := rfl

@[simp] theorem Machine.alloc_fst (m : Machine) (v : SamplesResource) : (m.alloc v).1 = m.next := rfl

@[simp] theorem Machine.alloc_calls (m : Machine) (v : SamplesResource) :
    (m.alloc v).2.calls = m.calls := rfl

@[simp] theorem Machine.alloc_h (m : Machine) (v : SamplesResource) : (m.alloc v).2.h = m.h := rfl

@[simp] theorem Machine.alloc_next (m : Machine) (v : SamplesResource) :
    (m.alloc v).2.next = m.next + 1 := rfl

@[simp] theorem Machine.alloc_heap_same (m : Machine) (v : SamplesResource) :
    (m.alloc v).2.heap m.next = v := by simp [Machine.alloc]

theorem Machine.alloc_heap (m : Machine) (q : Nat) (v : SamplesResource) :
    (m.alloc v).2.heap q = if q = m.next then v else m.heap q := rfl

@[simp] theorem Machine.allocOpt_calls (m : Machine) (v : Option SamplesResource) :
    (m.allocOpt v).2.calls = m.calls := by cases v <;> rfl

@[simp] theorem Machine.allocOpt_h (m : Machine) (v : Option SamplesResource) :
    (m.allocOpt v).2.h = m.h := by cases v <;> rfl

@[simp] theorem stamped_name (sr : SamplesResource) (c : SamplesResourceConditionType)
    (st : ConditionStatus) (now : Nat) : (stamped sr c st now).name = sr.name := rfl

@[simp] theorem stamped_nspace (sr : SamplesResource) (c : SamplesResourceConditionType)
    (st : ConditionStatus) (now : Nat) : (stamped sr c st now).nspace = sr.nspace := rfl

@[simp] theorem stamped_resourceVersion (sr : SamplesResource) (c : SamplesResourceConditionType)
    (st : ConditionStatus) (now : Nat) :
    (stamped sr c st now).resourceVersion = sr.resourceVersion := rfl

@[simp] theorem stamped_spec (sr : SamplesResource) (c : SamplesResourceConditionType)
    (st : ConditionStatus) (now : Nat) : (stamped sr c st now).spec = sr.spec := rfl

@[simp] theorem stampedUnknown_name (sr : SamplesResource) (c : SamplesResourceConditionType)
    (log : String) (now : Nat) : (stampedUnknown sr c log now).name = sr.name := rfl

@[simp] theorem stampedUnknown_resourceVersion (sr : SamplesResource)
    (c : SamplesResourceConditionType) (log : String) (now : Nat) :
    (stampedUnknown sr c log now).resourceVersion = sr.resourceVersion := rfl

@[simp] theorem stampedUnknown_spec (sr : SamplesResource) (c : SamplesResourceConditionType)
    (log : String) (now : Nat) : (stampedUnknown sr c log now).spec = sr.spec := rfl

/-- What `processError` does: with a non-nil instance it returns the error
it was given, after at most one `Update` of the instance. -/
theorem processError_calls (env : Env) (p : Nat) (ctype : SamplesResourceConditionType)
    (err : Option Err) (msg : String) (args : List String) (m : Machine) :
    ∃ (extra : List Call) (m' : Machine),
      processError env (some p) ctype err msg args m = (.returned err, m') ∧
      m'.calls = m.calls ++ extra ∧ m'.h = m.h ∧ m'.next = m.next ∧
      (∀ q, q ≠ p → m'.heap q = m.heap q) ∧
      (m'.heap p).spec = (m.heap p).spec ∧
      (extra = [] ∨ ∃ sr, extra = [.sdkwrapperUpdate sr]) := by
  unfold processError
  cases ctype <;> simp only
  · exact ⟨[], m, rfl, by simp, rfl, rfl, fun _ _ => rfl, rfl, Or.inl rfl⟩
  · exact ⟨[], m, rfl, by simp, rfl, rfl, fun _ _ => rfl, rfl, Or.inl rfl⟩
  all_goals
    split
    · refine ⟨_, _, rfl, rfl, rfl, rfl, ?_, ?_, Or.inr ⟨_, rfl⟩⟩
      · intro q hq
        simp [Machine.write_heap, hq]
      · simp
    · exact ⟨[], m, rfl, by simp, rfl, rfl, fun _ _ => rfl, rfl, Or.inl rfl⟩

theorem stamped_condition_status (sr : SamplesResource) (c : SamplesResourceConditionType)
    (st : ConditionStatus) (now : Nat) : ((stamped sr c st now).Condition c).status = st := by
  simp [stamped, SamplesResource.Condition, SamplesResource.ConditionUpdate]

theorem stampedUnknown_condition_status (sr : SamplesResource)
    (c : SamplesResourceConditionType) (log : String) (now : Nat) :
    ((stampedUnknown sr c log now).Condition c).status = ConditionUnknown := by
  simp [stampedUnknown, SamplesResource.Condition, SamplesResource.ConditionUpdate]

theorem stampedUnknown_condition_message (sr : SamplesResource)
    (c : SamplesResourceConditionType) (log : String) (now : Nat) :
    ((stampedUnknown sr c log now).Condition c).message = log := by
  simp [stampedUnknown, SamplesResource.Condition, SamplesResource.ConditionUpdate]

theorem stampedUnknown_condition_other (sr : SamplesResource)
    (c k : SamplesResourceConditionType) (log : String) (now : Nat) (hk : k ≠ c) :
    (stampedUnknown sr c log now).Condition k = sr.Condition k := by
  simp [stampedUnknown, SamplesResource.Condition, SamplesResource.ConditionUpdate, hk]

/-- What `processError` does for the failure kind SamplesUpdateFailed and a
non-nil instance: it returns the error it was given; unless the condition
SamplesExist is Unknown already, it sets that condition to Unknown with the
message and hands the instance to `Update`. -/
theorem processError_samplesUpdateFailed (env : Env) (p : Nat) (err : Option Err)
    (msg : String) (args : List String) (m : Machine) :
    processError env (some p) .SamplesUpdateFailed err msg args m =
      (.returned err,
        if ((m.heap p).Condition .SamplesExist).status ≠ ConditionUnknown then
          (m.write p (stampedUnknown (m.heap p) .SamplesExist (env.sprintf msg err args)
            (env.now m.calls))).call
            (.sdkwrapperUpdate (stampedUnknown (m.heap p) .SamplesExist
              (env.sprintf msg err args) (env.now m.calls)))
        else m) := by
  unfold processError
  simp only
  split <;> simp

/-! ### Lemmas on strings -/

theorem replaceFirstChars_of_prefix (old new s : List Char) (h : old.isPrefixOf s = true) :
    replaceFirstChars old new s = new ++ s.drop old.length := by
  cases s with
  | nil =>
    have : old = [] := by
      cases old with
      | nil => rfl
      | cons a t => simp [List.isPrefixOf] at h
    subst this
    simp [replaceFirstChars]
  | cons c cs => simp [replaceFirstChars, h]

theorem stringsHasPrefix_append (p rest : String) : stringsHasPrefix (p ++ rest) p = true := by
  simp [stringsHasPrefix, List.isPrefixOf_iff_prefix]

theorem stringsReplace1_append (p rest new : String) :
    stringsReplace1 (p ++ rest) p new = new ++ rest := by
  have h : p.data.isPrefixOf (p.data ++ rest.data) = true := by
    simp [List.isPrefixOf_iff_prefix]
  apply String.ext
  simp [stringsReplace1, replaceFirstChars_of_prefix _ _ _ h]

theorem replaceFirstMatch_first (registry s p : String) (before after : List String)
    (hbefore : ∀ q ∈ before, stringsHasPrefix s q = false)
    (hp : stringsHasPrefix s p = true) :
    replaceFirstMatch registry s (before ++ p :: after) = some (stringsReplace1 s p registry) := by
  induction before with
  | nil => simp [replaceFirstMatch, hp]
  | cons q qs ih =>
    have hq : stringsHasPrefix s q = false := hbefore q (by simp)
    have hqs : ∀ r ∈ qs, stringsHasPrefix s r = false := fun r hr => hbefore r (by simp [hr])
    simp [replaceFirstMatch, hq, ih hqs]

theorem replaceFirstMatch_none (registry s : String) (oldies : List String)
    (h : ∀ q ∈ oldies, stringsHasPrefix s q = false) :
    replaceFirstMatch registry s oldies = none := by
  induction oldies with
  | nil => rfl
  | cons q qs ih =>
    have hq : stringsHasPrefix s q = false := h q (by simp)
    have hqs : ∀ r ∈ qs, stringsHasPrefix s r = false := fun r hr => h r (by simp [hr])
    simp [replaceFirstMatch, hq, ih hqs]

/-- Values of `Atoi` at the edges of `strconv.Atoi`: a syntax error gives 0,
also after digits; a digit run beyond 64 bits gives the bound of `int64`,
also when a character that is no digit follows the overflowing digit. -/
theorem Atoi_edge_values :
    Atoi "12" = 12 ∧ Atoi "-5" = -5 ∧ Atoi "+7" = 7 ∧ Atoi "" = 0 ∧ Atoi "-" = 0 ∧
    Atoi "12a" = 0 ∧ Atoi "9x99999999999999999999" = 0 ∧
    Atoi "9223372036854775808" = 9223372036854775807 ∧
    Atoi "-9223372036854775809" = -9223372036854775808 ∧
    Atoi "18446744073709551615x" = 0 ∧
    Atoi "99999999999999999999x" = 9223372036854775807 ∧
    Atoi "-99999999999999999999x" = -9223372036854775808 := by
  decide

/-! ### GetBaseDir and updateDockerPullSpec (C4 to C8) -/

/-- C4: `GetBaseDir` follows the policy table: the three supported pairs give
their content root and no error, every other pair gives the empty directory,
and the error is nil exactly for the three supported pairs. -/
theorem GetBaseDir_policy_table (arch : String) (opcfg : SamplesResource) :
    GetBaseDir arch opcfg =
      (if arch = "x86_64" ∧ opcfg.spec.installType = "rhel" then
        ("/opt/openshift/operator/ocp-x86_64", none)
      else if arch = "x86_64" ∧ opcfg.spec.installType = "centos" then
        ("/opt/openshift/operator/okd-x86_64", none)
      else if arch = "ppc64le" ∧ opcfg.spec.installType = "rhel" then
        ("/opt/openshift/operator/ocp-ppc64le", none)
      else ("", (GetBaseDir arch opcfg).2)) ∧
    ((GetBaseDir arch opcfg).2 = none ↔
      ((arch = "x86_64" ∧ opcfg.spec.installType = "rhel") ∨
       (arch = "x86_64" ∧ opcfg.spec.installType = "centos") ∨
       (arch = "ppc64le" ∧ opcfg.spec.installType = "rhel"))) := by
  have hx : ("x86_64" : String) ≠ "ppc64le" := by decide
  have hr : ("rhel" : String) ≠ "centos" := by decide
  unfold GetBaseDir x86 ppc RHELSamplesDistribution CentosSamplesDistribution
    x86OCPContentRootDir x86OKDContentRootDir ppc64OCPContentRootDir
  by_cases h1 : arch = "x86_64"
  · subst h1
    by_cases h2 : opcfg.spec.installType = "rhel"
    · simp [h2]
    · by_cases h3 : opcfg.spec.installType = "centos"
      · simp [h3]
      · simp [h2, h3]
  · by_cases h4 : arch = "ppc64le"
    · subst h4
      by_cases h2 : opcfg.spec.installType = "rhel"
      · simp [h2]
      · by_cases h3 : opcfg.spec.installType = "centos"
        · simp [h3]
        · simp [h2, h3]
    · simp [h1, h4]

/-- With a non-empty override, when the repository is `p` followed by `rest`
and `p` is the first prefix of the list the repository starts with,
`updateDockerPullSpec` sets the repository to the override followed by
`rest` (handler.go 464-470: the loop stops at the first prefix that
matches). -/
theorem updateDockerPullSpec_replaces_first_prefix (before after : List String)
    (p rest : String) (imagestream : ImageStream) (opcfg : SamplesResource)
    (hR : opcfg.spec.samplesRegistry.length > 0)
    (hbefore : ∀ q ∈ before, stringsHasPrefix imagestream.dockerImageRepository q = false)
    (hrepo : imagestream.dockerImageRepository = p ++ rest) :
    (updateDockerPullSpec (before ++ p :: after) imagestream opcfg).imagestream.dockerImageRepository
      = opcfg.spec.samplesRegistry ++ rest := by
  have hp : stringsHasPrefix imagestream.dockerImageRepository p = true := by
    rw [hrepo]; exact stringsHasPrefix_append p rest
  have h := replaceFirstMatch_first opcfg.spec.samplesRegistry
    imagestream.dockerImageRepository p before after hbefore hp
  unfold updateDockerPullSpec
  simp only [hR, if_true, h]
  rw [hrepo, stringsReplace1_append]

/-- C5: with a non-empty override `R`, for each of the lists of recognized
prefixes (the community list of handler.go 392 and the RHEL list of
handler.go 395) and every image stream whose repository is a prefix `p` of
the list followed by `rest`, `updateDockerPullSpec` sets the repository to
`R` followed by `rest`; with the community list `docker.io/foo/bar` becomes
`R/foo/bar`. -/
theorem updateDockerPullSpec_replaces_recognized_prefix (oldies : List String)
    (p rest : String) (imagestream : ImageStream) (opcfg : SamplesResource)
    (hlist : oldies = ["docker.io"] ∨
      oldies = ["registry.redhat.io", "registry.access.redhat.com"])
    (hR : opcfg.spec.samplesRegistry.length > 0)
    (hp : p ∈ oldies)
    (hrepo : imagestream.dockerImageRepository = p ++ rest) :
    (updateDockerPullSpec oldies imagestream opcfg).imagestream.dockerImageRepository
      = opcfg.spec.samplesRegistry ++ rest := by
  rcases hlist with hl | hl
  · subst hl
    have hp' : p = "docker.io" := by simpa using hp
    subst hp'
    exact updateDockerPullSpec_replaces_first_prefix [] [] "docker.io" rest imagestream opcfg
      hR (by simp) hrepo
  · subst hl
    have hp' : p = "registry.redhat.io" ∨ p = "registry.access.redhat.com" := by simpa using hp
    rcases hp' with hp' | hp'
    · subst hp'
      exact updateDockerPullSpec_replaces_first_prefix [] ["registry.access.redhat.com"]
        "registry.redhat.io" rest imagestream opcfg hR (by simp) hrepo
    · subst hp'
      refine updateDockerPullSpec_replaces_first_prefix ["registry.redhat.io"] []
        "registry.access.redhat.com" rest imagestream opcfg hR ?_ hrepo
      intro q hq
      have hq' : q = "registry.redhat.io" := by simpa using hq
      subst hq'
      rw [hrepo]
      simp only [stringsHasPrefix, String.data_append]
      rfl

/-- The RHEL list and a repository under its second prefix:
`registry.access.redhat.com/rhscl/ruby` becomes `R/rhscl/ruby`. -/
theorem updateDockerPullSpec_replaces_recognized_prefix_witness :
    (updateDockerPullSpec ["registry.redhat.io", "registry.access.redhat.com"]
      ⟨"ruby", "", "registry.access.redhat.com/rhscl/ruby", []⟩
      (configWithRegistry "R")).imagestream.dockerImageRepository
      = (configWithRegistry "R").spec.samplesRegistry ++ "/rhscl/ruby" :=
  updateDockerPullSpec_replaces_recognized_prefix
    ["registry.redhat.io", "registry.access.redhat.com"] "registry.access.redhat.com"
    "/rhscl/ruby" ⟨"ruby", "", "registry.access.redhat.com/rhscl/ruby", []⟩
    (configWithRegistry "R") (Or.inr rfl) (by decide) (by decide) (by decide)

/-- C6 at the failing input: override `R`, community prefix list, repository
`quay.io/foo/bar`: the repository is left as it was, and it is the override
in the instance's spec that becomes `R/quay.io/foo/bar`. -/
theorem updateDockerPullSpec_unmatched_repository_unchanged :
    (updateDockerPullSpec ["docker.io"] ⟨"foo", "", "quay.io/foo/bar", []⟩
      (configWithRegistry "R")).imagestream.dockerImageRepository = "quay.io/foo/bar" ∧
    (updateDockerPullSpec ["docker.io"] ⟨"foo", "", "quay.io/foo/bar", []⟩
      (configWithRegistry "R")).imagestream.dockerImageRepository ≠ "R/quay.io/foo/bar" := by
  decide

/-- C7 at the failing input: override `R`, community prefix list, repository
`quay.io/foo/bar`: the call changes the `samplesRegistry` of the instance's
spec from `R` to `R/quay.io/foo/bar`. -/
theorem updateDockerPullSpec_writes_instance_spec :
    (configWithRegistry "R").spec.samplesRegistry = "R" ∧
    (updateDockerPullSpec ["docker.io"] ⟨"foo", "", "quay.io/foo/bar", []⟩
      (configWithRegistry "R")).opcfg.spec.samplesRegistry = "R/quay.io/foo/bar" := by
  decide

/-- C8 at the failing input: override `R`, community prefix list, one tag
whose `from` is the cross-reference `ImageStreamTag ruby:2.5`: the call
rewrites the name of the cross-reference to `R/ruby:2.5`. -/
theorem updateDockerPullSpec_rewrites_cross_reference :
    (updateDockerPullSpec ["docker.io"]
      ⟨"ruby", "", "docker.io/centos/ruby", [⟨"latest", some ⟨"ImageStreamTag", "ruby:2.5"⟩⟩]⟩
      (configWithRegistry "R")).imagestream.tags
      = [⟨"latest", some ⟨"ImageStreamTag", "R/ruby:2.5"⟩⟩] := by
  decide

/-! ### The version gate of Handle (C2) -/

/-- C2: when the handler holds a last-applied instance and a non-deleted
event carries the well-known name and a resourceVersion that, read as an
integer, is not above the last-applied one, `Handle` returns nil and the
machine is the one it started from: no adapter call, no write to the
handler or the heap. -/
theorem Handle_stale_version_is_noop (fuel : Nat) (env : Env) (srcfg cur : Nat) (m : Machine)
    (hcur : m.h.samplesResource = some cur)
    (hname : (m.heap srcfg).name = SamplesResourceName)
    (hver : Atoi (m.heap srcfg).resourceVersion ≤ Atoi (m.heap cur).resourceVersion) :
    Handle fuel env ⟨.samplesResource srcfg, false⟩ m = (.returned none, m) := by
  simp [Handle, hname, staleVersion, hcur, hver]

/-- An event of version 4 after version 7 was applied. -/
theorem Handle_stale_version_is_noop_witness :
    Handle 3 quietEnv ⟨.samplesResource 1, false⟩
      (twoObjects { emptyHandler with samplesResource := some 0 }
        (instanceWith "7" ["x86_64"] "centos") (instanceWith "4" ["x86_64"] "centos"))
      = (.returned none,
         twoObjects { emptyHandler with samplesResource := some 0 }
          (instanceWith "7" ["x86_64"] "centos") (instanceWith "4" ["x86_64"] "centos")) :=
  Handle_stale_version_is_noop 3 quietEnv 1 0 _ rfl rfl (by decide)

/-! ### The conflict retry of GoodConditionUpdate (C10) -/

theorem stringsHasSuffix_imagestreams_not_templates (dir : String)
    (h : stringsHasSuffix dir "imagestreams" = true) : stringsHasSuffix dir "templates" = false := by
  by_contra hc
  have hc : stringsHasSuffix dir "templates" = true := by simpa using hc
  simp only [stringsHasSuffix, List.isSuffixOf_iff_suffix] at h hc
  have : ("templates" : String).data <:+ ("imagestreams" : String).data :=
    List.suffix_of_suffix_length_le hc h (by decide)
  exact absurd this (by decide)

theorem updateDockerPullSpec_name (oldies : List String) (imagestream : ImageStream)
    (opcfg : SamplesResource) :
    (updateDockerPullSpec oldies imagestream opcfg).imagestream.name = imagestream.name := by
  unfold updateDockerPullSpec
  split
  · simp only
    split <;> rfl
  · rfl

theorem updatePullSpecForInstallType_name (imagestream : ImageStream) (opcfg : SamplesResource) :
    (updatePullSpecForInstallType imagestream opcfg).imagestream.name = imagestream.name := by
  unfold updatePullSpecForInstallType
  simp only
  split_ifs <;> simp [updateDockerPullSpec_name]

/-- C1: for an image-stream definition that `processFiles` reads from a file
of a directory whose path ends in `imagestreams`, whose name is not in the
skip set and whose pull specs were rewritten, the calls are the read, one
`Get` in `openshift` and then: if `Get` reports not-found, one `Create` of
the definition in `openshift` and no `Update`, after which `processFiles`
goes on to the next entry (the not-found is not an error), or returns the
error of the `Create` itself; if `Get` returns a stored object, one `Update`
in `openshift` of the definition with the stored resourceVersion and no
`Create`, after which `processFiles` goes on, or returns the error of the
`Update` itself.  After a failed write the only further call is the one
`Update` of the instance by which `processError` may record the failure. -/
theorem processFiles_creates_or_updates_imagestream (fuel : Nat) (env : Env) (dir : String)
    (file : FileInfo) (rest : List FileInfo) (p : Nat) (m m1 : Machine)
    (imagestream definition : ImageStream)
    (hdir : stringsHasSuffix dir "imagestreams" = true)
    (hfile : file.isDir = false)
    (hread : env.fileimagegetterGet m.calls (dir ++ "/" ++ file.name) = (some imagestream, none))
    (hskip : imagestream.name ∉ m.h.skippedImagestreams)
    (hrewrite : (updatePullSpecForInstallType imagestream (m.heap p)).panicked = false)
    (hdef : definition = (updatePullSpecForInstallType imagestream (m.heap p)).imagestream)
    (hm1 : m1 = ((m.call (.fileimagegetterGet (dir ++ "/" ++ file.name))).write p
        (updatePullSpecForInstallType imagestream (m.heap p)).opcfg).call
          (.imageclientwrapperGet "openshift" definition.name)) :
    (∀ x, env.imageclientwrapperGet (m.calls ++ [.fileimagegetterGet (dir ++ "/" ++ file.name)])
          "openshift" definition.name = (x, some .notFound) →
      (env.imageclientwrapperCreate m1.calls "openshift" definition = none →
        processFiles (fuel + 1) env dir (file :: rest) (some p) m =
          processFiles (fuel + 1) env dir rest (some p)
            (m1.call (.imageclientwrapperCreate "openshift" definition))) ∧
      (∀ e, env.imageclientwrapperCreate m1.calls "openshift" definition = some e →
        ∃ (extra : List Call) (m' : Machine),
          processFiles (fuel + 1) env dir (file :: rest) (some p) m = (.returned (some e), m') ∧
          m'.calls = m.calls ++ [.fileimagegetterGet (dir ++ "/" ++ file.name),
            .imageclientwrapperGet "openshift" definition.name,
            .imageclientwrapperCreate "openshift" definition] ++ extra ∧
          (extra = [] ∨ ∃ sr, extra = [.sdkwrapperUpdate sr]))) ∧
    (∀ stored, env.imageclientwrapperGet (m.calls ++ [.fileimagegetterGet (dir ++ "/" ++ file.name)])
          "openshift" definition.name = (some stored, none) →
      (env.imageclientwrapperUpdate m1.calls "openshift"
          { definition with resourceVersion := stored.resourceVersion } = none →
        processFiles (fuel + 1) env dir (file :: rest) (some p) m =
          processFiles (fuel + 1) env dir rest (some p)
            (m1.call (.imageclientwrapperUpdate "openshift"
              { definition with resourceVersion := stored.resourceVersion }))) ∧
      (∀ e, env.imageclientwrapperUpdate m1.calls "openshift"
          { definition with resourceVersion := stored.resourceVersion } = some e →
        ∃ (extra : List Call) (m' : Machine),
          processFiles (fuel + 1) env dir (file :: rest) (some p) m = (.returned (some e), m') ∧
          m'.calls = m.calls ++ [.fileimagegetterGet (dir ++ "/" ++ file.name),
            .imageclientwrapperGet "openshift" definition.name,
            .imageclientwrapperUpdate "openshift"
              { definition with resourceVersion := stored.resourceVersion }] ++ extra ∧
          (extra = [] ∨ ∃ sr, extra = [.sdkwrapperUpdate sr]))) := by
  have htpl := stringsHasSuffix_imagestreams_not_templates dir hdir
  have hname : definition.name = imagestream.name := by
    rw [hdef, updatePullSpecForInstallType_name]
  have hbody : processImageStreamFile env dir file (some p) m =
      applyImageStream env (some p) definition
        ((m.call (.fileimagegetterGet (dir ++ "/" ++ file.name))).write p
          (updatePullSpecForInstallType imagestream (m.heap p)).opcfg) := by
    unfold processImageStreamFile
    simp [hdir, hread, hskip, hrewrite, hdef]
  have hstep : processFiles (fuel + 1) env dir (file :: rest) (some p) m =
      match applyImageStream env (some p) definition
        ((m.call (.fileimagegetterGet (dir ++ "/" ++ file.name))).write p
          (updatePullSpecForInstallType imagestream (m.heap p)).opcfg) with
      | (some o, m) => (o, m)
      | (none, m) => processFiles (fuel + 1) env dir rest (some p) m := by
    rw [processFiles, processFilesLoop, processFile]
    simp only [processSubdir, hfile, hbody, Bool.false_eq_true, if_false]
    generalize applyImageStream env (some p) definition _ = r
    rcases r with ⟨_ | o, m2⟩
    · simp [processTemplateFile, htpl, processFiles]
    · simp
  rw [hstep]
  subst hm1
  refine ⟨fun x hget => ⟨fun hc => ?_, fun e hc => ?_⟩, fun stored hget => ⟨fun hc => ?_, fun e hc => ?_⟩⟩
  · simp only [Machine.call_calls, Machine.write_calls, List.append_assoc, List.singleton_append,
      List.cons_append, List.nil_append] at hc
    simp [applyImageStream, hget, IsNotFound, hc]
  · simp only [Machine.call_calls, Machine.write_calls, List.append_assoc, List.singleton_append,
      List.cons_append, List.nil_append] at hc
    obtain ⟨extra, m', hpe, hcalls, -, -, -, -, hextra⟩ :=
      processError_calls env p .SamplesUpdateFailed (some e) "imagestream create error: %v" []
        ((((m.call (.fileimagegetterGet (dir ++ "/" ++ file.name))).write p
          (updatePullSpecForInstallType imagestream (m.heap p)).opcfg).call
            (.imageclientwrapperGet "openshift" definition.name)).call
              (.imageclientwrapperCreate "openshift" definition))
    refine ⟨extra, m', ?_, ?_, hextra⟩
    · simp [applyImageStream, hget, IsNotFound, hc, leave, hpe]
    · rw [hcalls]; simp
  · simp only [Machine.call_calls, Machine.write_calls, List.append_assoc, List.singleton_append,
      List.cons_append, List.nil_append] at hc
    simp [applyImageStream, hget, IsNotFound, hc]
  · simp only [Machine.call_calls, Machine.write_calls, List.append_assoc, List.singleton_append,
      List.cons_append, List.nil_append] at hc
    obtain ⟨extra, m', hpe, hcalls, -, -, -, -, hextra⟩ :=
      processError_calls env p .SamplesUpdateFailed (some e) "imagestream update error: %v" []
        ((((m.call (.fileimagegetterGet (dir ++ "/" ++ file.name))).write p
          (updatePullSpecForInstallType imagestream (m.heap p)).opcfg).call
            (.imageclientwrapperGet "openshift" definition.name)).call
              (.imageclientwrapperUpdate "openshift"
                { definition with resourceVersion := stored.resourceVersion }))
    refine ⟨extra, m', ?_, ?_, hextra⟩
    · simp [applyImageStream, hget, IsNotFound, hc, leave, hpe]
    · rw [hcalls]; simp

/-! ### What a synchronization pass leaves unchanged -/

@[simp] theorem leave_snd (r : Outcome × Machine) : (leave r).2 = r.2 := rfl

@[simp] theorem leave_fst (r : Outcome × Machine) : (leave r).1 = some r.1 := rfl

theorem SyncFrame.same (opcfg : Option Nat) (m : Machine) : SyncFrame opcfg m m :=
  ⟨rfl, rfl, fun _ _ => rfl, [], by simp, by simp⟩

theorem SyncFrame.andThen {opcfg : Option Nat} {m m1 m2 : Machine}
    (h1 : SyncFrame opcfg m m1) (h2 : SyncFrame opcfg m1 m2) : SyncFrame opcfg m m2 := by
  obtain ⟨ha, hb, hc, n1, hd, he⟩ := h1
  obtain ⟨ha', hb', hc', n2, hd', he'⟩ := h2
  refine ⟨ha'.trans ha, hb'.trans hb, fun q hq => (hc' q hq).trans (hc q hq), n1 ++ n2, ?_, ?_⟩
  · rw [hd', hd, List.append_assoc]
  · intro c hcm
    rcases List.mem_append.mp hcm with h | h
    · exact he c h
    · rw [ha] at he'
      exact he' c h

theorem SyncFrame.andCall {opcfg : Option Nat} {m x : Machine} (c : Call)
    (h : SyncFrame opcfg m x)
    (hc : CallAvoids m.h.skippedImagestreams m.h.skippedTemplates c) :
    SyncFrame opcfg m (x.call c) := by
  refine h.andThen ⟨rfl, rfl, fun _ _ => rfl, [c], rfl, ?_⟩
  intro d hd
  rw [List.mem_singleton.mp hd, h.1]
  exact hc

theorem SyncFrame.andWrite {p : Nat} {m x : Machine} (v : SamplesResource)
    (h : SyncFrame (some p) m x) : SyncFrame (some p) m (x.write p v) := by
  refine h.andThen ⟨rfl, rfl, fun q hq => ?_, [], by simp, by simp⟩
  have : q ≠ p := fun e => hq (by rw [e])
  simp [Machine.write_heap, this]

theorem processError_frame (env : Env) (opcfg : Option Nat) (ctype : SamplesResourceConditionType)
    (err : Option Err) (msg : String) (args : List String) {m x : Machine}
    (h : SyncFrame opcfg m x) :
    SyncFrame opcfg m (processError env opcfg ctype err msg args x).2 := by
  unfold processError
  cases ctype <;> simp only <;> try exact h
  all_goals
    cases opcfg with
    | none => exact h
    | some p =>
      simp only
      split
      · exact (h.andWrite _).andCall _ ⟨fun _ _ => rfl, fun _ _ => rfl⟩
      · exact h

theorem CallAvoids.other {si st : List String} {c : Call}
    (hi : ∀ n, c.writesImageStream n = false) (ht : ∀ n, c.writesTemplate n = false) :
    CallAvoids si st c :=
  ⟨fun n _ => hi n, fun n _ => ht n⟩

theorem CallAvoids.imageStream {si st : List String} (is : ImageStream)
    (h : is.name ∉ si) (c : Call)
    (hc : c = .imageclientwrapperCreate "openshift" is ∨
      c = .imageclientwrapperUpdate "openshift" is) : CallAvoids si st c := by
  rcases hc with hc | hc <;> subst hc
  all_goals
    refine ⟨fun n hn => ?_, fun _ _ => rfl⟩
    simp only [Call.writesImageStream, beq_eq_false_iff_ne, ne_eq]
    intro e
    exact h (e ▸ hn)

theorem CallAvoids.template {si st : List String} (t : Template)
    (h : t.name ∉ st) (c : Call)
    (hc : c = .templateclientwrapperCreate "openshift" t ∨
      c = .templateclientwrapperUpdate "openshift" t) : CallAvoids si st c := by
  rcases hc with hc | hc <;> subst hc
  all_goals
    refine ⟨fun _ _ => rfl, fun n hn => ?_⟩
    simp only [Call.writesTemplate, beq_eq_false_iff_ne, ne_eq]
    intro e
    exact h (e ▸ hn)

theorem applyImageStream_frame (env : Env) (opcfg : Option Nat) (imagestream : ImageStream)
    {m x : Machine} (h : SyncFrame opcfg m x)
    (hname : imagestream.name ∉ m.h.skippedImagestreams) :
    SyncFrame opcfg m (applyImageStream env opcfg imagestream x).2 := by
  have hget : SyncFrame opcfg m (x.call (.imageclientwrapperGet "openshift" imagestream.name)) :=
    h.andCall _ (CallAvoids.other (fun _ => rfl) (fun _ => rfl))
  unfold applyImageStream
  simp only
  split
  · exact processError_frame _ _ _ _ _ _ hget
  · split
    · split
      · exact processError_frame _ _ _ _ _ _
          (hget.andCall _ (CallAvoids.imageStream _ hname _ (Or.inl rfl)))
      · exact hget.andCall _ (CallAvoids.imageStream _ hname _ (Or.inl rfl))
    · rename_i stored _
      have hw : CallAvoids m.h.skippedImagestreams m.h.skippedTemplates
          (.imageclientwrapperUpdate "openshift"
            { imagestream with resourceVersion := stored.resourceVersion }) :=
        CallAvoids.imageStream { imagestream with resourceVersion := stored.resourceVersion }
          hname _ (Or.inr rfl)
      split
      · exact processError_frame _ _ _ _ _ _ (hget.andCall _ hw)
      · exact hget.andCall _ hw

theorem applyTemplate_frame (env : Env) (opcfg : Option Nat) (template : Template)
    {m x : Machine} (h : SyncFrame opcfg m x)
    (hname : template.name ∉ m.h.skippedTemplates) :
    SyncFrame opcfg m (applyTemplate env opcfg template x).2 := by
  have hget : SyncFrame opcfg m (x.call (.templateclientwrapperGet "openshift" template.name)) :=
    h.andCall _ (CallAvoids.other (fun _ => rfl) (fun _ => rfl))
  unfold applyTemplate
  simp only
  split
  · exact processError_frame _ _ _ _ _ _ hget
  · split
    · split
      · exact processError_frame _ _ _ _ _ _
          (hget.andCall _ (CallAvoids.template _ hname _ (Or.inl rfl)))
      · exact hget.andCall _ (CallAvoids.template _ hname _ (Or.inl rfl))
    · rename_i stored _
      have hw : CallAvoids m.h.skippedImagestreams m.h.skippedTemplates
          (.templateclientwrapperUpdate "openshift"
            { template with resourceVersion := stored.resourceVersion }) :=
        CallAvoids.template { template with resourceVersion := stored.resourceVersion }
          hname _ (Or.inr rfl)
      split
      · exact processError_frame _ _ _ _ _ _ (hget.andCall _ hw)
      · exact hget.andCall _ hw

theorem processImageStreamFile_frame (env : Env) (dir : String) (file : FileInfo)
    (opcfg : Option Nat) (m : Machine) :
    SyncFrame opcfg m (processImageStreamFile env dir file opcfg m).2 := by
  have hread : SyncFrame opcfg m (m.call (.fileimagegetterGet (dir ++ "/" ++ file.name))) :=
    (SyncFrame.same opcfg m).andCall _ (CallAvoids.other (fun _ => rfl) (fun _ => rfl))
  unfold processImageStreamFile
  split
  · simp only
    split
    · exact processError_frame _ _ _ _ _ _ hread
    · split
      · exact hread
      · rename_i imagestream _
        split
        · exact hread
        · rename_i hskip
          cases opcfg with
          | none => exact hread
          | some p =>
            simp only
            split
            · exact hread.andWrite _
            · refine applyImageStream_frame _ _ _ (hread.andWrite _) ?_
              rw [updatePullSpecForInstallType_name]
              simpa using hskip
  · exact SyncFrame.same opcfg m

theorem processTemplateFile_frame (env : Env) (dir : String) (file : FileInfo)
    (opcfg : Option Nat) (m : Machine) :
    SyncFrame opcfg m (processTemplateFile env dir file opcfg m).2 := by
  have hread : SyncFrame opcfg m (m.call (.filetemplategetterGet (dir ++ "/" ++ file.name))) :=
    (SyncFrame.same opcfg m).andCall _ (CallAvoids.other (fun _ => rfl) (fun _ => rfl))
  unfold processTemplateFile
  split
  · simp only
    split
    · exact processError_frame _ _ _ _ _ _ hread
    · split
      · exact hread
      · split
        · exact hread
        · rename_i hskip
          exact applyTemplate_frame _ _ _ hread (by simpa using hskip)
  · exact SyncFrame.same opcfg m

theorem processSubdir_frame (recurse : String → List FileInfo → Machine → Outcome × Machine)
    (env : Env) (dir : String) (file : FileInfo) (opcfg : Option Nat) (m : Machine)
    (hrec : ∀ d fs x, SyncFrame opcfg x (recurse d fs x).2) :
    SyncFrame opcfg m (processSubdir recurse env dir file opcfg m).2 := by
  have hlist : SyncFrame opcfg m (m.call (.filefinderList (dir ++ "/" ++ file.name))) :=
    (SyncFrame.same opcfg m).andCall _ (CallAvoids.other (fun _ => rfl) (fun _ => rfl))
  unfold processSubdir
  split
  · simp only
    split
    · exact processError_frame _ _ _ _ _ _ hlist
    · have h2 := hrec (dir ++ "/" ++ file.name)
        (env.filefinderList m.calls (dir ++ "/" ++ file.name)).1
        (m.call (.filefinderList (dir ++ "/" ++ file.name)))
      split
      · rename_i heq
        rw [heq] at h2
        exact hlist.andThen h2
      · rename_i heq
        rw [heq] at h2
        exact hlist.andThen h2
  · exact SyncFrame.same opcfg m

theorem processFile_frame (recurse : String → List FileInfo → Machine → Outcome × Machine)
    (env : Env) (dir : String) (file : FileInfo) (opcfg : Option Nat) (m : Machine)
    (hrec : ∀ d fs x, SyncFrame opcfg x (recurse d fs x).2) :
    SyncFrame opcfg m (processFile recurse env dir file opcfg m).2 := by
  have h1 := processSubdir_frame recurse env dir file opcfg m hrec
  unfold processFile
  split
  · rename_i heq
    rw [heq] at h1
    exact h1
  · rename_i m1 heq
    rw [heq] at h1
    have h2 := processImageStreamFile_frame env dir file opcfg m1
    split
    · rename_i heq2
      rw [heq2] at h2
      exact h1.andThen h2
    · rename_i m2 heq2
      rw [heq2] at h2
      exact (h1.andThen h2).andThen (processTemplateFile_frame env dir file opcfg m2)

theorem processFilesLoop_frame (recurse : String → List FileInfo → Machine → Outcome × Machine)
    (env : Env) (dir : String) (opcfg : Option Nat)
    (hrec : ∀ d fs x, SyncFrame opcfg x (recurse d fs x).2) (files : List FileInfo) :
    ∀ m, SyncFrame opcfg m (processFilesLoop recurse env dir opcfg files m).2 := by
  induction files with
  | nil => intro m; exact SyncFrame.same opcfg m
  | cons file rest ih =>
    intro m
    have h1 := processFile_frame recurse env dir file opcfg m hrec
    unfold processFilesLoop
    split
    · rename_i heq
      rw [heq] at h1
      exact h1
    · rename_i m1 heq
      rw [heq] at h1
      exact h1.andThen (ih m1)

theorem processFiles_frame (fuel : Nat) (env : Env) (opcfg : Option Nat) :
    ∀ (dir : String) (files : List FileInfo) (m : Machine),
      SyncFrame opcfg m (processFiles fuel env dir files opcfg m).2 := by
  induction fuel with
  | zero => intro dir files m; exact SyncFrame.same opcfg m
  | succ n ih =>
    intro dir files m
    rw [processFiles]
    exact processFilesLoop_frame _ env dir opcfg (fun d fs x => ih d fs x) files m

theorem Machine.setRegistrySecret_same (m : Machine) (secret : Secret)
    (h : m.h.registrySecret = some secret) : m.setRegistrySecret (some secret) = m := by
  obtain ⟨⟨a, b, c, d, e⟩, hp, nx, cs⟩ := m
  simp only at h
  subst h
  rfl

/-- The replay of the cached secret from `Handle` (handler.go 288) hands
`manageDockerCfgSecret` the secret the handler already caches: either no
instance was applied yet and the secret is cached again, or the version gate
of line 205 drops a secret that is not newer than itself. -/
theorem manageDockerCfgSecret_replay (env : Env) (samplesResource : Option Nat) (secret : Secret)
    (m : Machine) (h : m.h.registrySecret = some secret) :
    manageDockerCfgSecret env false samplesResource secret m = (.returned none, m) := by
  unfold manageDockerCfgSecret
  split
  · rfl
  · split
    · simp [Machine.setRegistrySecret_same m secret h]
    · simp [h]

theorem prepareSync_spec (env : Env) (srcfg : Nat) (m : Machine) :
    (prepareSync env srcfg m).1 = none ∧
    (prepareSync env srcfg m).2.h = buildSkipFilters (m.heap srcfg) m.h ∧
    (prepareSync env srcfg m).2.calls = m.calls ∧
    (prepareSync env srcfg m).2.next = m.next ∧
    (∀ q, q ≠ srcfg → (prepareSync env srcfg m).2.heap q = m.heap q) := by
  have hr : (match m.h.registrySecret with
      | some secret =>
        if ¬ (m.heap srcfg).ConditionTrue .ImportCredentialsExist then
          manageDockerCfgSecret env false (some srcfg) secret m
        else (.returned none, m)
      | none => (.returned none, m)) = (Outcome.returned none, m) := by
    split
    · rename_i secret heq
      split
      · exact manageDockerCfgSecret_replay env _ secret m heq
      · rfl
    · rfl
  unfold prepareSync
  simp only [hr]
  refine ⟨trivial, ?_, ?_, ?_, ?_⟩
  · split_ifs <;> rfl
  · split_ifs <;> rfl
  · split_ifs <;> rfl
  · intro q hq
    split_ifs <;> simp [Machine.write_heap, hq]

theorem buildSkipFilters_samplesResource (opcfg : SamplesResource) (h : Handler) :
    (buildSkipFilters opcfg h).samplesResource = h.samplesResource := rfl

theorem syncArchitectures_frame (fuel : Nat) (env : Env) (srcfg : Nat) (archs : List String) :
    ∀ m, SyncFrame (some srcfg) m (syncArchitectures fuel env srcfg archs m).2 := by
  induction archs with
  | nil => intro m; exact SyncFrame.same _ m
  | cons arch rest ih =>
    intro m
    have hlist : SyncFrame (some srcfg) m
        (m.call (.filefinderList (GetBaseDir arch (m.heap srcfg)).1)) :=
      (SyncFrame.same _ m).andCall _ (CallAvoids.other (fun _ => rfl) (fun _ => rfl))
    unfold syncArchitectures
    simp only
    split
    · exact processError_frame _ _ _ _ _ _ (SyncFrame.same _ m)
    · split
      · exact processError_frame _ _ _ _ _ _ hlist
      · have hp := processFiles_frame fuel env (some srcfg) (GetBaseDir arch (m.heap srcfg)).1
          (env.filefinderList m.calls (GetBaseDir arch (m.heap srcfg)).1).1
          (m.call (.filefinderList (GetBaseDir arch (m.heap srcfg)).1))
        split
        · rename_i m1 heq
          rw [heq] at hp
          exact (hlist.andThen hp).andThen (ih m1)
        · rename_i e m1 heq
          rw [heq] at hp
          exact processError_frame _ _ _ _ _ _ (hlist.andThen hp)
        · rename_i o m1 _ _ heq
          rw [heq] at hp
          exact hlist.andThen hp

/-! ### Failure of a synchronization pass (C3) -/

theorem syncArchitectures_append (fuel : Nat) (env : Env) (srcfg : Nat) (rest : List String)
    (pre : List String) :
    ∀ m mk, syncArchitectures fuel env srcfg pre m = (none, mk) →
      syncArchitectures fuel env srcfg (pre ++ rest) m =
        syncArchitectures fuel env srcfg rest mk := by
  induction pre with
  | nil =>
    intro m mk h
    simp only [syncArchitectures, Prod.mk.injEq, true_and] at h
    subst h
    rfl
  | cons arch pre ih =>
    intro m mk h
    rw [List.cons_append]
    rw [syncArchitectures] at h ⊢
    simp only at h ⊢
    split at h
    · simp [leave] at h
    · rename_i hd
      simp only [hd, if_false]
      split at h
      · simp [leave] at h
      · rename_i hl
        simp only [hl, if_false]
        split at h
        · rename_i m1 heq
          exact ih m1 mk h
        · simp [leave] at h
        · simp at h

theorem staleVersion_ne (srcfg cur : Nat) (m : Machine) (hgate : staleVersion srcfg m = false)
    (hcur : m.h.samplesResource = some cur) : cur ≠ srcfg := by
  intro e
  subst e
  simp [staleVersion, hcur] at hgate

/-- C3: for an add/update event that passes the name check and the version
gate, when the architectures before `arch` were synchronized and `arch`
fails with the error `e` (in `GetBaseDir`, in the listing of its directory,
or in `processFiles`), `Handle` returns exactly `e`; the handler's
last-applied instance is the same pointer to the same object as before the
call; and after the point of failure the only call is the at most one
`Update` by which `processError` records the failure, so that no later
architecture is processed. -/
theorem Handle_sync_failure (fuel : Nat) (env : Env) (srcfg : Nat) (m mk mf : Machine)
    (pre post : List String) (arch : String) (e : Err)
    (hname : (m.heap srcfg).name = SamplesResourceName)
    (hgate : staleVersion srcfg m = false)
    (harchs : ((prepareSync env srcfg m).2.heap srcfg).spec.architectures = pre ++ arch :: post)
    (hpre : syncArchitectures fuel env srcfg pre (prepareSync env srcfg m).2 = (none, mk))
    (hfail :
      ((GetBaseDir arch (mk.heap srcfg)).2 = some e ∧ mf = mk) ∨
      ((GetBaseDir arch (mk.heap srcfg)).2 = none ∧
        (env.filefinderList mk.calls (GetBaseDir arch (mk.heap srcfg)).1).2 = some e ∧
        mf = mk.call (.filefinderList (GetBaseDir arch (mk.heap srcfg)).1)) ∨
      ((GetBaseDir arch (mk.heap srcfg)).2 = none ∧
        (env.filefinderList mk.calls (GetBaseDir arch (mk.heap srcfg)).1).2 = none ∧
        processFiles fuel env (GetBaseDir arch (mk.heap srcfg)).1
          (env.filefinderList mk.calls (GetBaseDir arch (mk.heap srcfg)).1).1 (some srcfg)
          (mk.call (.filefinderList (GetBaseDir arch (mk.heap srcfg)).1))
          = (.returned (some e), mf))) :
    ∃ (extra : List Call) (m' : Machine),
      Handle fuel env ⟨.samplesResource srcfg, false⟩ m = (.returned (some e), m') ∧
      m'.h.samplesResource = m.h.samplesResource ∧
      (∀ cur, m.h.samplesResource = some cur → m'.heap cur = m.heap cur) ∧
      m'.calls = mf.calls ++ extra ∧
      (extra = [] ∨ ∃ sr, extra = [.sdkwrapperUpdate sr]) := by
  obtain ⟨hp1, hph, -, -, hpheap⟩ := prepareSync_spec env srcfg m
  have hk : SyncFrame (some srcfg) (prepareSync env srcfg m).2 mk := by
    have := syncArchitectures_frame fuel env srcfg pre (prepareSync env srcfg m).2
    rw [hpre] at this
    exact this
  -- the failing step runs `processError` on `mf`
  have hstep : ∃ msg, syncArchitectures fuel env srcfg (arch :: post) mk =
      leave (processError env (some srcfg) .SamplesUpdateFailed (some e) msg [] mf) ∧
      SyncFrame (some srcfg) mk mf := by
    rcases hfail with ⟨hd, hmf⟩ | ⟨hd, hl, hmf⟩ | ⟨hd, hl, hpf⟩
    · subst hmf
      exact ⟨"error determining distro/type : %v", by simp [syncArchitectures, hd],
        SyncFrame.same _ _⟩
    · subst hmf
      exact ⟨"error reading in content : %v", by simp [syncArchitectures, hd, hl],
        (SyncFrame.same _ _).andCall (.filefinderList (GetBaseDir arch (mk.heap srcfg)).1)
          (CallAvoids.other (fun _ => rfl) (fun _ => rfl))⟩
    · refine ⟨"error processing content : %v", by simp [syncArchitectures, hd, hl, hpf], ?_⟩
      have := processFiles_frame fuel env (some srcfg) (GetBaseDir arch (mk.heap srcfg)).1
        (env.filefinderList mk.calls (GetBaseDir arch (mk.heap srcfg)).1).1
        (mk.call (.filefinderList (GetBaseDir arch (mk.heap srcfg)).1))
      rw [hpf] at this
      exact ((SyncFrame.same _ _).andCall (.filefinderList (GetBaseDir arch (mk.heap srcfg)).1)
        (CallAvoids.other (fun _ => rfl) (fun _ => rfl))).andThen this
  obtain ⟨msg, hsync, hmf⟩ := hstep
  obtain ⟨extra, m', hpe, hcalls, -, -, -, -, hextra⟩ :=
    processError_calls env srcfg .SamplesUpdateFailed (some e) msg [] mf
  have hm' : SyncFrame (some srcfg) (prepareSync env srcfg m).2 m' := by
    have := processError_frame env (some srcfg) .SamplesUpdateFailed (some e) msg [] (hk.andThen hmf)
    rw [hpe] at this
    exact this
  refine ⟨extra, m', ?_, ?_, ?_, hcalls, hextra⟩
  · have hall := syncArchitectures_append fuel env srcfg (arch :: post) pre _ mk hpre
    rw [← harchs, hsync, hpe] at hall
    have hprep : prepareSync env srcfg m = (none, (prepareSync env srcfg m).2) :=
      Prod.ext hp1 rfl
    unfold Handle
    simp only [hname, ne_eq, not_true_eq_false, if_false, hgate, Bool.false_eq_true]
    rw [hprep]
    simp only [hall, leave]
  · rw [hm'.1, hph]
    rfl
  · intro cur hcur
    have hne := staleVersion_ne srcfg cur m hgate hcur
    rw [hm'.2.2.1 cur (by simpa using hne.symm), hpheap cur hne]

/-- The image stream `ruby`, read from `imagestreams/ruby.json` in an empty
cluster, is created and `processFiles` goes on. -/
theorem processFiles_creates_or_updates_imagestream_witness :
    processFiles (0 + 1) rubyEnv "/opt/openshift/operator/okd-x86_64/imagestreams"
        (⟨"ruby.json", false⟩ :: []) (some 1) (appliedThenEvent ["x86_64"]) =
      processFiles (0 + 1) rubyEnv "/opt/openshift/operator/okd-x86_64/imagestreams" []
        (some 1)
        (((((appliedThenEvent ["x86_64"]).call (.fileimagegetterGet
            ("/opt/openshift/operator/okd-x86_64/imagestreams" ++ "/" ++ "ruby.json"))).write 1
          (updatePullSpecForInstallType ⟨"ruby", "", "docker.io/centos/ruby", []⟩
            ((appliedThenEvent ["x86_64"]).heap 1)).opcfg).call
          (.imageclientwrapperGet "openshift" "ruby")).call
          (.imageclientwrapperCreate "openshift" ⟨"ruby", "", "docker.io/centos/ruby", []⟩)) :=
  ((processFiles_creates_or_updates_imagestream 0 rubyEnv
    "/opt/openshift/operator/okd-x86_64/imagestreams" ⟨"ruby.json", false⟩ [] 1
    (appliedThenEvent ["x86_64"]) _ ⟨"ruby", "", "docker.io/centos/ruby", []⟩
    ⟨"ruby", "", "docker.io/centos/ruby", []⟩
    (by decide) rfl rfl (by decide) (by decide) (by decide) rfl).1 none rfl).1 rfl

/-- An event of version 4 with the one architecture `s390x`, after version 3
was applied: `GetBaseDir` fails and `Handle` returns its error. -/
theorem Handle_sync_failure_witness :
    ∃ (extra : List Call) (m' : Machine),
      Handle 3 quietEnv ⟨.samplesResource 1, false⟩ (appliedThenEvent ["s390x"]) =
        (.returned (some (.other
          "architecture s390x unsupported; only support x86_64 and ppc64le")), m') ∧
      m'.h.samplesResource = (appliedThenEvent ["s390x"]).h.samplesResource ∧
      (∀ cur, (appliedThenEvent ["s390x"]).h.samplesResource = some cur →
        m'.heap cur = (appliedThenEvent ["s390x"]).heap cur) ∧
      m'.calls = (prepareSync quietEnv 1 (appliedThenEvent ["s390x"])).2.calls ++ extra ∧
      (extra = [] ∨ ∃ sr, extra = [.sdkwrapperUpdate sr]) :=
  Handle_sync_failure 3 quietEnv 1 (appliedThenEvent ["s390x"])
    (prepareSync quietEnv 1 (appliedThenEvent ["s390x"])).2
    (prepareSync quietEnv 1 (appliedThenEvent ["s390x"])).2
    [] [] "s390x" (.other "architecture s390x unsupported; only support x86_64 and ppc64le")
    rfl (by decide) (by decide) rfl (Or.inl ⟨by decide, rfl⟩)

theorem Keeps.start {si st : List String} {m : Machine} (h : Skips si st m) : Keeps si st m m :=
  ⟨h, [], by simp, by simp⟩

theorem Keeps.next {si st : List String} {m m1 m2 : Machine}
    (h1 : Keeps si st m m1) (h2 : Keeps si st m1 m2) : Keeps si st m m2 := by
  obtain ⟨-, n1, hd, he⟩ := h1
  obtain ⟨hs, n2, hd', he'⟩ := h2
  refine ⟨hs, n1 ++ n2, by rw [hd', hd, List.append_assoc], ?_⟩
  intro c hc
  rcases List.mem_append.mp hc with h | h
  · exact he c h
  · exact he' c h

theorem Keeps.of_syncFrame {si st : List String} {opcfg : Option Nat} {m m' : Machine}
    (hs : Skips si st m) (h : SyncFrame opcfg m m') : Keeps si st m m' := by
  obtain ⟨hh, -, -, new, hc, ha⟩ := h
  refine ⟨by rw [Skips, hh]; exact hs, new, hc, fun c hcm => ?_⟩
  exact ⟨fun n hn => (ha c hcm).1 n (hs.1 n hn), fun n hn => (ha c hcm).2 n (hs.2 n hn)⟩

theorem Keeps.withCall {si st : List String} {m x : Machine} (c : Call) (h : Keeps si st m x)
    (hi : ∀ n, c.writesImageStream n = false) (ht : ∀ n, c.writesTemplate n = false) :
    Keeps si st m (x.call c) :=
  h.next ⟨h.1, [c], rfl, fun d hd => by
    rw [List.mem_singleton.mp hd]; exact ⟨fun n _ => hi n, fun n _ => ht n⟩⟩

theorem Keeps.withWrite {si st : List String} {m x : Machine} (p : Nat) (v : SamplesResource)
    (h : Keeps si st m x) : Keeps si st m (x.write p v) :=
  h.next ⟨h.1, [], by simp, by simp⟩

theorem Keeps.withAlloc {si st : List String} {m x : Machine} (v : SamplesResource)
    (h : Keeps si st m x) : Keeps si st m (x.alloc v).2 :=
  h.next ⟨h.1, [], by simp, by simp⟩

theorem Keeps.withAllocOpt {si st : List String} {m x : Machine} (v : Option SamplesResource)
    (h : Keeps si st m x) : Keeps si st m (x.allocOpt v).2 := by
  cases v with
  | none => exact h
  | some v => exact h.withAlloc v

theorem Keeps.withSamplesResource {si st : List String} {m x : Machine} (p : Option Nat)
    (h : Keeps si st m x) : Keeps si st m (x.setSamplesResource p) :=
  h.next ⟨h.1, [], by simp, by simp⟩

theorem Keeps.withRegistrySecret {si st : List String} {m x : Machine} (s : Option Secret)
    (h : Keeps si st m x) : Keeps si st m (x.setRegistrySecret s) :=
  h.next ⟨h.1, [], by simp, by simp⟩

theorem processError_keeps {si st : List String} (env : Env) (opcfg : Option Nat)
    (ctype : SamplesResourceConditionType) (err : Option Err) (msg : String)
    (args : List String) {m x : Machine} (h : Keeps si st m x) :
    Keeps si st m (processError env opcfg ctype err msg args x).2 :=
  h.next (Keeps.of_syncFrame h.1
    (processError_frame env opcfg ctype err msg args (SyncFrame.same opcfg x)))

theorem retryConditionUpdate_keeps {si st : List String} (env : Env) (p now : Nat)
    (newStatus : ConditionStatus) (condition : SamplesResourceConditionType) {m x : Machine}
    (h : Keeps si st m x) :
    Keeps si st m (retryConditionUpdate env p now newStatus condition x).2 := by
  have h1 : Keeps si st m ((x.call (.sdkwrapperGet (x.heap p).name (x.heap p).nspace)).allocOpt
      (env.sdkwrapperGet x.calls (x.heap p).name (x.heap p).nspace).1).2 :=
    (h.withCall _ (by intro _; rfl) (by intro _; rfl)).withAllocOpt _
  unfold retryConditionUpdate
  simp only
  split
  · exact processError_keeps _ _ _ _ _ _ h1
  · split
    · exact h1
    · split
      · exact processError_keeps _ _ _ _ _ _
          ((h1.withWrite _ _).withCall _ (by intro _; rfl) (by intro _; rfl))
      · exact ((h1.withWrite _ _).withCall _ (by intro _; rfl) (by intro _; rfl)).withSamplesResource _

theorem GoodConditionUpdate_keeps {si st : List String} (env : Env) (srcfg : Option Nat)
    (newStatus : ConditionStatus) (condition : SamplesResourceConditionType) {m x : Machine}
    (h : Keeps si st m x) :
    Keeps si st m (GoodConditionUpdate env srcfg newStatus condition x).2 := by
  unfold GoodConditionUpdate
  split
  · exact h
  · simp only
    split
    · split
      · split
        · exact processError_keeps _ _ _ _ _ _
            ((h.withWrite _ _).withCall _ (by intro _; rfl) (by intro _; rfl))
        · exact retryConditionUpdate_keeps _ _ _ _ _
            ((h.withWrite _ _).withCall _ (by intro _; rfl) (by intro _; rfl))
      · exact ((h.withWrite _ _).withCall _ (by intro _; rfl) (by intro _; rfl)).withSamplesResource _
    · exact h.withSamplesResource _

theorem CreateDefaultResourceIfNeeded_keeps {si st : List String} (env : Env) {m x : Machine}
    (h : Keeps si st m x) : Keeps si st m (CreateDefaultResourceIfNeeded env x).2 := by
  unfold CreateDefaultResourceIfNeeded
  split
  · simp only
    split
    · split
      · exact processError_keeps _ _ _ _ _ _
          ((h.withAlloc _).withCall _ (by intro _; rfl) (by intro _; rfl))
      · exact (h.withAlloc _).withCall _ (by intro _; rfl) (by intro _; rfl)
    · exact GoodConditionUpdate_keeps _ _ _ _
        ((h.withAlloc _).withCall _ (by intro _; rfl) (by intro _; rfl))
  · exact h

theorem finishDockerCfgSecret_keeps {si st : List String} (env : Env)
    (samplesResource : Option Nat) (secret : Secret) (newStatus : ConditionStatus)
    {m x : Machine} (h : Keeps si st m x) :
    Keeps si st m (finishDockerCfgSecret env samplesResource secret newStatus x).2 := by
  have h1 := GoodConditionUpdate_keeps env samplesResource newStatus .ImportCredentialsExist h
  unfold finishDockerCfgSecret
  split
  · rename_i heq
    rw [heq] at h1
    exact (h1.withRegistrySecret _).withSamplesResource _
  · exact h1

theorem writeDockerCfgSecret_keeps {si st : List String} (env : Env)
    (samplesResource : Option Nat) (secret secretToCreate : Secret) (s : Option Secret)
    {m x : Machine} (h : Keeps si st m x) :
    Keeps si st m (writeDockerCfgSecret env samplesResource secret secretToCreate s x).2 := by
  unfold writeDockerCfgSecret
  cases s with
  | none =>
    simp only
    split
    · exact processError_keeps _ _ _ _ _ _ (h.withCall _ (by intro _; rfl) (by intro _; rfl))
    · exact finishDockerCfgSecret_keeps _ _ _ _
        ((h.withCall _ (by intro _; rfl) (by intro _; rfl)).withRegistrySecret _)
  | some s =>
    simp only
    split
    · exact processError_keeps _ _ _ _ _ _ (h.withCall _ (by intro _; rfl) (by intro _; rfl))
    · exact finishDockerCfgSecret_keeps _ _ _ _
        ((h.withCall _ (by intro _; rfl) (by intro _; rfl)).withRegistrySecret _)

theorem manageDockerCfgSecret_keeps {si st : List String} (env : Env) (deleted : Bool)
    (samplesResource : Option Nat) (secret : Secret) {m x : Machine} (h : Keeps si st m x) :
    Keeps si st m (manageDockerCfgSecret env deleted samplesResource secret x).2 := by
  unfold manageDockerCfgSecret
  split
  · exact h
  · split
    · split
      · exact h.withRegistrySecret _
      · exact h
    · split
      · simp only
        split
        · exact processError_keeps _ _ _ _ _ _ (h.withCall _ (by intro _; rfl) (by intro _; rfl))
        · exact finishDockerCfgSecret_keeps _ _ _ _
            ((h.withCall _ (by intro _; rfl) (by intro _; rfl)).withRegistrySecret _)
      · split
        · exact h
        · have hget : Keeps si st m (x.call (.secretclientwrapperGet "openshift" secret.name)) :=
            h.withCall _ (by intro _; rfl) (by intro _; rfl)
          simp only
          split
          · exact processError_keeps _ _ _ _ _ _ hget
          · exact writeDockerCfgSecret_keeps _ _ _ _ _ hget

theorem mem_foldl_mapSetTrue_of_mem_keys (n : String) (l : List String) :
    ∀ keys : List String, n ∈ keys → n ∈ l.foldl mapSetTrue keys := by
  induction l with
  | nil => intro keys h; exact h
  | cons k ks ih =>
    intro keys h
    apply ih
    unfold mapSetTrue
    split
    · exact h
    · exact List.mem_append_left _ h

theorem mem_foldl_mapSetTrue_of_mem (n : String) (l : List String) :
    ∀ keys : List String, n ∈ l → n ∈ l.foldl mapSetTrue keys := by
  induction l with
  | nil => intro keys h; cases h
  | cons k ks ih =>
    intro keys h
    rw [List.foldl_cons]
    rcases List.mem_cons.mp h with h | h
    · subst h
      apply mem_foldl_mapSetTrue_of_mem_keys
      unfold mapSetTrue
      split
      · assumption
      · simp
    · exact ih _ h

theorem buildSkipFilters_skips {si st : List String} (opcfg : SamplesResource) (m x : Machine)
    (hx : x.h = buildSkipFilters opcfg m.h)
    (h : Skips si st m ∨
      ((∀ n ∈ si, n ∈ opcfg.spec.skippedImagestreams) ∧
       (∀ n ∈ st, n ∈ opcfg.spec.skippedTemplates))) : Skips si st x := by
  unfold Skips
  rw [hx]
  rcases h with h | h
  · exact ⟨fun n hn => mem_foldl_mapSetTrue_of_mem_keys n _ _ (h.1 n hn),
      fun n hn => mem_foldl_mapSetTrue_of_mem_keys n _ _ (h.2 n hn)⟩
  · exact ⟨fun n hn => mem_foldl_mapSetTrue_of_mem n _ _ (h.1 n hn),
      fun n hn => mem_foldl_mapSetTrue_of_mem n _ _ (h.2 n hn)⟩

theorem Handle_sync_path_keeps {si st : List String} (fuel : Nat) (env : Env) (srcfg : Nat)
    (m : Machine) (hname : (m.heap srcfg).name = SamplesResourceName)
    (hgate : staleVersion srcfg m = false)
    (hs : Skips si st m ∨
      ((∀ n ∈ si, n ∈ (m.heap srcfg).spec.skippedImagestreams) ∧
       (∀ n ∈ st, n ∈ (m.heap srcfg).spec.skippedTemplates))) :
    Keeps si st m (Handle fuel env ⟨.samplesResource srcfg, false⟩ m).2 := by
  obtain ⟨hp1, hph, hpc, -, -⟩ := prepareSync_spec env srcfg m
  have hs2 : Skips si st (prepareSync env srcfg m).2 :=
    buildSkipFilters_skips (m.heap srcfg) m _ hph hs
  have hk2 : Keeps si st m (prepareSync env srcfg m).2 := ⟨hs2, [], by simp [hpc], by simp⟩
  have hprep : prepareSync env srcfg m = (none, (prepareSync env srcfg m).2) := Prod.ext hp1 rfl
  have hk3 := hk2.next (Keeps.of_syncFrame hs2 (syncArchitectures_frame fuel env srcfg
    (((prepareSync env srcfg m).2.heap srcfg).spec.architectures) (prepareSync env srcfg m).2))
  unfold Handle
  simp only [hname, ne_eq, not_true_eq_false, if_false, hgate, Bool.false_eq_true]
  rw [hprep]
  simp only
  split
  · rename_i heq
    rw [heq] at hk3
    exact hk3
  · rename_i heq
    rw [heq] at hk3
    exact GoodConditionUpdate_keeps _ _ _ _ hk3

theorem Handle_keeps {si st : List String} (fuel : Nat) (env : Env) (event : Event)
    (m : Machine) (hs : Skips si st m) : Keeps si st m (Handle fuel env event m).2 := by
  obtain ⟨object, deleted⟩ := event
  cases object with
  | secret s => exact manageDockerCfgSecret_keeps _ _ _ _ (Keeps.start hs)
  | other => exact Keeps.start hs
  | samplesResource srcfg =>
    by_cases hname : (m.heap srcfg).name = SamplesResourceName
    · cases deleted with
      | true =>
        simp only [Handle, hname, ne_eq, not_true_eq_false, if_false, if_true]
        exact CreateDefaultResourceIfNeeded_keeps _ ((Keeps.start hs).withSamplesResource _)
      | false =>
        by_cases hgate : staleVersion srcfg m = false
        · exact Handle_sync_path_keeps fuel env srcfg m hname hgate (Or.inl hs)
        · simp only [Bool.not_eq_false] at hgate
          simp only [Handle, hname, ne_eq, not_true_eq_false, if_false, hgate, if_true,
            Bool.false_eq_true]
          exact Keeps.start hs
    · simp only [Handle, hname, ne_eq, not_false_eq_true, if_true]
      exact Keeps.start hs

theorem deliver_keeps {si st : List String} (fuel : Nat) (env : Env) (d : Delivery)
    (m : Machine) (hs : Skips si st m) : Keeps si st m (deliver fuel env d m).2 := by
  cases d with
  | secret s deleted => exact Handle_keeps fuel env _ m hs
  | samplesResource sr deleted =>
    have h1 : Keeps si st m (m.alloc sr).2 := (Keeps.start hs).withAlloc sr
    exact h1.next (Handle_keeps fuel env _ _ h1.1)

theorem runEvents_keeps {si st : List String} (fuel : Nat) (env : Env) (ds : List Delivery) :
    ∀ m, Skips si st m → Keeps si st m (runEvents fuel env ds m) := by
  induction ds with
  | nil => intro m hs; exact Keeps.start hs
  | cons d ds ih =>
    intro m hs
    have h1 := deliver_keeps fuel env d m hs
    unfold runEvents
    split
    · rename_i heq
      rw [heq] at h1
      exact h1.next (ih _ h1.1)
    · rename_i heq
      rw [heq] at h1
      exact h1

/-- C9: once a non-deleted event with the well-known name has passed the
version gate, so that `Handle` takes it to the skip-filter step, no call
issued from then on, in the rest of this `Handle` or in the handling of any
later events, whatever the adapters and the definition trees they list, is a
`Create` or an `Update` of an image stream whose name is in the
skippedImagestreams of that event, nor of a template whose name is in its
skippedTemplates; later events need not list these names. -/
theorem skipped_names_are_never_written (fuel : Nat) (env : Env) (sr : SamplesResource)
    (later : List Delivery) (m : Machine)
    (hname : sr.name = SamplesResourceName)
    (hgate : staleVersion (m.alloc sr).1 (m.alloc sr).2 = false) :
    ∃ new, (runEvents fuel env (.samplesResource sr false :: later) m).calls = m.calls ++ new ∧
      ∀ c ∈ new,
        (∀ n ∈ sr.spec.skippedImagestreams, c.writesImageStream n = false) ∧
        (∀ n ∈ sr.spec.skippedTemplates, c.writesTemplate n = false) := by
  have hheap : (m.alloc sr).2.heap (m.alloc sr).1 = sr := by simp
  have h1 : Keeps sr.spec.skippedImagestreams sr.spec.skippedTemplates (m.alloc sr).2
      (Handle fuel env ⟨.samplesResource (m.alloc sr).1, false⟩ (m.alloc sr).2).2 :=
    Handle_sync_path_keeps fuel env _ _ (by rw [hheap]; exact hname) hgate
      (Or.inr ⟨by rw [hheap]; exact fun _ h => h, by rw [hheap]; exact fun _ h => h⟩)
  have h2 : Keeps sr.spec.skippedImagestreams sr.spec.skippedTemplates m
      (runEvents fuel env (.samplesResource sr false :: later) m) := by
    unfold runEvents deliver
    simp only
    split
    · rename_i heq
      rw [heq] at h1
      have h3 := h1.next (runEvents_keeps fuel env later _ h1.1)
      exact ⟨h3.1, h3.2⟩
    · rename_i heq
      rw [heq] at h1
      exact ⟨h1.1, h1.2⟩
  obtain ⟨-, new, hc, ha⟩ := h2
  exact ⟨new, hc, fun c hcm => ha c hcm⟩

/-- Version 4 of the instance skips `ruby`, version 5 no longer lists it,
and the content root holds `imagestreams/ruby.json`. -/
theorem skipped_names_are_never_written_witness :
    ∃ new, (runEvents 5 treeEnv
        (.samplesResource (instanceSkipping "4" ["ruby"]) false ::
          [.samplesResource (instanceSkipping "5" []) false])
        (appliedThenEvent ["x86_64"])).calls = (appliedThenEvent ["x86_64"]).calls ++ new ∧
      ∀ c ∈ new,
        (∀ n ∈ (instanceSkipping "4" ["ruby"]).spec.skippedImagestreams,
          c.writesImageStream n = false) ∧
        (∀ n ∈ (instanceSkipping "4" ["ruby"]).spec.skippedTemplates,
          c.writesTemplate n = false) :=
  skipped_names_are_never_written 5 treeEnv (instanceSkipping "4" ["ruby"])
    [.samplesResource (instanceSkipping "5" []) false] (appliedThenEvent ["x86_64"])
    rfl (by decide)

/-! ### The registry credential (C11, C12) -/

/-- C11 at the failing input: a handler that has observed nothing is handed
the credential (not deleted) and then version 4 of the instance, whose
ImportCredentialsExist condition is not True, every store call succeeding.
The secret event caches the credential and issues no call, as the claim
says; the instance event is handled without error and applied, but no
`Create` or `Update` of a secret is among the calls and the instance's
ImportCredentialsExist condition is still not True: the replay of line 288
returns at line 189, the handler holding no instance yet. -/
theorem Handle_does_not_mirror_cached_credential :
    (deliver 5 treeEnv (.secret credential false) freshMachine).1 = .returned none ∧
    (runEvents 5 treeEnv [.secret credential false] freshMachine).calls.length = 0 ∧
    (runEvents 5 treeEnv [.secret credential false] freshMachine).h.registrySecret
      = some credential ∧
    (runEvents 5 treeEnv [.secret credential false] freshMachine).h.samplesResource = none ∧
    ((instanceWith "4" ["x86_64"] "centos").ConditionTrue .ImportCredentialsExist) = false ∧
    (deliver 5 treeEnv (.samplesResource (instanceWith "4" ["x86_64"] "centos") false)
      (runEvents 5 treeEnv [.secret credential false] freshMachine)).1 = .returned none ∧
    (runEvents 5 treeEnv [.secret credential false,
      .samplesResource (instanceWith "4" ["x86_64"] "centos") false]
      freshMachine).h.samplesResource = some 0 ∧
    (runEvents 5 treeEnv [.secret credential false,
      .samplesResource (instanceWith "4" ["x86_64"] "centos") false]
      freshMachine).calls.any Call.writesSecret = false ∧
    (((runEvents 5 treeEnv [.secret credential false,
      .samplesResource (instanceWith "4" ["x86_64"] "centos") false]
      freshMachine).heap 0).ConditionTrue .ImportCredentialsExist) = false := by
  decide

/-- C12 at the failing input: the handler applied the instance and caches
the mirrored credential, and the credential is deleted, `Delete` and the
condition update succeeding.  `manageDockerCfgSecret` returns nil and the
instance's ImportCredentialsExist condition is False, as the claim says, but
the handler's cached credential is not empty: line 200 clears it and line 241
assigns the deleted secret to it again. -/
theorem manageDockerCfgSecret_caches_deleted_credential :
    mirroredMachine.h.samplesResource = some 0 ∧
    (manageDockerCfgSecret quietEnv true (some 0) credential mirroredMachine).1
      = .returned none ∧
    (((manageDockerCfgSecret quietEnv true (some 0) credential mirroredMachine).2.heap 0).Condition
      .ImportCredentialsExist).status = ConditionFalse ∧
    (manageDockerCfgSecret quietEnv true (some 0) credential mirroredMachine).2.h.registrySecret
      = some credential ∧
    (manageDockerCfgSecret quietEnv true (some 0) credential mirroredMachine).2.h.registrySecret
      ≠ none := by
  decide

/-! ### The default instance (C13) -/

/-- C13, as the claim states it, fails: no instance has been observed and
the `Create` of the default instance reports already-exists;
`CreateDefaultResourceIfNeeded` does not return nil, it returns the
already-exists error (handler.go 173). -/
theorem CreateDefaultResourceIfNeeded_returns_already_exists :
    freshMachine.h.samplesResource = none ∧
    existsEnv.sdkwrapperCreate freshMachine.calls (defaultSamplesResource freshMachine.h.nspace)
      = some .alreadyExists ∧
    (CreateDefaultResourceIfNeeded existsEnv freshMachine).1 = .returned (some .alreadyExists) ∧
    (CreateDefaultResourceIfNeeded existsEnv freshMachine).1 ≠ .returned none := by
  decide

/-- C13 (amended): when no instance has been observed and the `Create` of
the default instance fails with `e`, `CreateDefaultResourceIfNeeded` returns
`e` to the caller and leaves the last-applied instance empty; when `e` is
already-exists it does so without retry and without condition write: the
`Create` is the only call it issues and the handler is as it was. -/
theorem CreateDefaultResourceIfNeeded_create_failure (env : Env) (m : Machine) (e : Err)
    (hnone : m.h.samplesResource = none)
    (hcreate : env.sdkwrapperCreate m.calls (defaultSamplesResource m.h.nspace) = some e) :
    ∃ m' : Machine,
      CreateDefaultResourceIfNeeded env m = (.returned (some e), m') ∧
      m'.h.samplesResource = none ∧
      (e = .alreadyExists →
        m'.calls = m.calls ++ [.sdkwrapperCreate (defaultSamplesResource m.h.nspace)] ∧
        m'.h = m.h) := by
  have hc : env.sdkwrapperCreate m.calls
      { SamplesResource.zero with
        name := SamplesResourceName
        nspace := m.h.nspace
        kind := "SamplesResource"
        apiVersion := "samplesoperator.config.openshift.io/v1alpha1"
        spec := { SamplesResource.zero.spec with
          architectures := [x86], installType := CentosSamplesDistribution } } = some e := hcreate
  unfold CreateDefaultResourceIfNeeded
  simp only [hnone, if_true, Machine.alloc_calls, Machine.alloc_fst, Machine.alloc_heap_same, hc]
  by_cases he : e = .alreadyExists
  · subst he
    simp only [IsAlreadyExists, not_true_eq_false, if_false]
    exact ⟨_, rfl, by simp [hnone], fun _ => ⟨rfl, by simp⟩⟩
  · have hne : IsAlreadyExists (some e) = false := by
      cases e <;> simp_all [IsAlreadyExists]
    simp only [hne, Bool.false_eq_true, not_false_eq_true, if_true]
    obtain ⟨extra, m', hpe, -, hh, -, -, -, -⟩ :=
      processError_calls env m.next .SamplesUpdateFailed (some e)
        "failed creating default resource: %v" []
        ((m.alloc (defaultSamplesResource m.h.nspace)).2.call
          (.sdkwrapperCreate (defaultSamplesResource m.h.nspace)))
    refine ⟨m', hpe, ?_, fun h => absurd h he⟩
    rw [hh]
    simpa using hnone

/-- The race lost in a cluster where the instance already exists. -/
theorem CreateDefaultResourceIfNeeded_create_failure_witness :
    ∃ m' : Machine,
      CreateDefaultResourceIfNeeded existsEnv freshMachine
        = (.returned (some .alreadyExists), m') ∧
      m'.h.samplesResource = none ∧
      (Err.alreadyExists = .alreadyExists →
        m'.calls = freshMachine.calls ++
          [.sdkwrapperCreate (defaultSamplesResource freshMachine.h.nspace)] ∧
        m'.h = freshMachine.h) :=
  CreateDefaultResourceIfNeeded_create_failure existsEnv freshMachine .alreadyExists rfl rfl

end SamplesOperator
